import Mathlib

/-!
Verification of the iLidar host tool (ilidar-tool.py) against its
natural-language specification.

The definitions below are a shallow embedding of the Python source:
byte arrays become List Nat (each entry a byte value), machine integers
become Nat with explicit truncation where the source truncates, and the
stateful protocol loops become explicit step functions over state records
and event lists.  Each definition cites the source function it embeds.
-/

set_option maxRecDepth 10000

namespace Ilidar

/-! ### Arithmetic helpers for little-endian byte packing -/

/-- Masking with 255 is reduction mod 256. -/
theorem land255 (x : Nat) : x &&& 255 = x % 256 := by
  simpa using Nat.and_pow_two_sub_one_eq_mod x 8

/-- Bitwise or of a multiple of 2 ^ n with a value below 2 ^ n is addition. -/
theorem or_eq_add_mul (n a b : Nat) (hb : b < 2 ^ n) (hm : 2 ^ n ∣ a) :
    a ||| b = a + b := by
  obtain ⟨c, rfl⟩ := hm
  exact (Nat.mul_add_lt_is_or hb c).symm

/-- Recombining the two little-endian bytes of a 16-bit value gives it back. -/
theorem recomb16 (x : Nat) (h : x < 65536) :
    (((x >>> 8) &&& 255) <<< 8) ||| ((x >>> 0) &&& 255) = x := by
  rw [or_eq_add_mul 8 _ _ (by rw [land255]; omega)
    ⟨(x >>> 8) &&& 255, by rw [Nat.shiftLeft_eq]; ring⟩]
  simp only [Nat.shiftLeft_eq, Nat.shiftRight_eq_div_pow, land255]
  norm_num
  omega

/-- Recombining the four little-endian bytes of a 32-bit value gives it back. -/
theorem recomb32 (x : Nat) (h : x < 4294967296) :
    (((x >>> 24) &&& 255) <<< 24) ||| (((x >>> 16) &&& 255) <<< 16) |||
      (((x >>> 8) &&& 255) <<< 8) ||| ((x >>> 0) &&& 255) = x := by
  have hc3 : (x >>> 24) &&& 255 < 2 ^ 8 := by rw [land255]; omega
  have hc2 : (x >>> 16) &&& 255 < 2 ^ 8 := by rw [land255]; omega
  have hc1 : (x >>> 8) &&& 255 < 2 ^ 8 := by rw [land255]; omega
  have d3a : (2 ^ 24 : Nat) ∣ ((x >>> 24) &&& 255) <<< 24 :=
    ⟨(x >>> 24) &&& 255, by rw [Nat.shiftLeft_eq]; ring⟩
  have d3b : (2 ^ 16 : Nat) ∣ ((x >>> 24) &&& 255) <<< 24 :=
    ⟨((x >>> 24) &&& 255) * 2 ^ 8, by rw [Nat.shiftLeft_eq]; ring⟩
  have d3c : (2 ^ 8 : Nat) ∣ ((x >>> 24) &&& 255) <<< 24 :=
    ⟨((x >>> 24) &&& 255) * 2 ^ 16, by rw [Nat.shiftLeft_eq]; ring⟩
  have d2b : (2 ^ 16 : Nat) ∣ ((x >>> 16) &&& 255) <<< 16 :=
    ⟨(x >>> 16) &&& 255, by rw [Nat.shiftLeft_eq]; ring⟩
  have d2c : (2 ^ 8 : Nat) ∣ ((x >>> 16) &&& 255) <<< 16 :=
    ⟨((x >>> 16) &&& 255) * 2 ^ 8, by rw [Nat.shiftLeft_eq]; ring⟩
  have d1c : (2 ^ 8 : Nat) ∣ ((x >>> 8) &&& 255) <<< 8 :=
    ⟨(x >>> 8) &&& 255, by rw [Nat.shiftLeft_eq]; ring⟩
  have hb2 : (((x >>> 16) &&& 255) <<< 16) < 2 ^ 24 := by
    calc ((x >>> 16) &&& 255) <<< 16 < 2 ^ (8 + 16) := Nat.shiftLeft_lt hc2
      _ = 2 ^ 24 := by norm_num
  have hb1 : (((x >>> 8) &&& 255) <<< 8) < 2 ^ 16 := by
    calc ((x >>> 8) &&& 255) <<< 8 < 2 ^ (8 + 8) := Nat.shiftLeft_lt hc1
      _ = 2 ^ 16 := by norm_num
  have h1 : (((x >>> 24) &&& 255) <<< 24) ||| (((x >>> 16) &&& 255) <<< 16) =
      (((x >>> 24) &&& 255) <<< 24) + (((x >>> 16) &&& 255) <<< 16) :=
    or_eq_add_mul 24 _ _ hb2 d3a
  have h2 : (((x >>> 24) &&& 255) <<< 24) + (((x >>> 16) &&& 255) <<< 16) |||
        (((x >>> 8) &&& 255) <<< 8) =
      (((x >>> 24) &&& 255) <<< 24) + (((x >>> 16) &&& 255) <<< 16) +
        (((x >>> 8) &&& 255) <<< 8) :=
    or_eq_add_mul 16 _ _ hb1 (Nat.dvd_add d3b d2b)
  have h3 : (((x >>> 24) &&& 255) <<< 24) + (((x >>> 16) &&& 255) <<< 16) +
        (((x >>> 8) &&& 255) <<< 8) ||| ((x >>> 0) &&& 255) =
      (((x >>> 24) &&& 255) <<< 24) + (((x >>> 16) &&& 255) <<< 16) +
        (((x >>> 8) &&& 255) <<< 8) + ((x >>> 0) &&& 255) :=
    or_eq_add_mul 8 _ _ (by rw [land255]; omega)
      (Nat.dvd_add (Nat.dvd_add d3c d2c) d1c)
  rw [h1, h2, h3]
  simp only [Nat.shiftLeft_eq, Nat.shiftRight_eq_div_pow, land255]
  norm_num
  omega

/-- Recombining the two bytes sn mod 256 and sn div 256 gives sn back. -/
theorem recomb_sn (x : Nat) (h : x < 65536) :
    ((x / 256) <<< 8) ||| (x % 256) = x := by
  rw [or_eq_add_mul 8 _ _ (by omega) ⟨x / 256, by rw [Nat.shiftLeft_eq]; ring⟩]
  rw [Nat.shiftLeft_eq]
  omega

/-- Peeling one element off a list of known positive length. -/
theorem cons_of_length_succ {α : Type} {l : List α} {n : Nat} (h : l.length = n + 1) :
    ∃ a t, l = a :: t ∧ t.length = n := by
  cases l with
  | nil => simp at h
  | cons a t => exact ⟨a, t, rfl, by simpa using h⟩

/-- Explicit shape of a list of length 2. -/
theorem list_shape_2 {α : Type} {l : List α} (h : l.length = 2) :
    ∃ x0 x1, l = [x0, x1] := by
  obtain ⟨x0, t0, rfl, h0⟩ := cons_of_length_succ h
  obtain ⟨x1, t1, rfl, h1⟩ := cons_of_length_succ h0
  obtain rfl := List.length_eq_zero.mp h1
  exact ⟨x0, x1, rfl⟩

/-- Explicit shape of a list of length 4. -/
theorem list_shape_4 {α : Type} {l : List α} (h : l.length = 4) :
    ∃ x0 x1 x2 x3, l = [x0, x1, x2, x3] := by
  obtain ⟨x0, t0, rfl, h0⟩ := cons_of_length_succ h
  obtain ⟨x1, t1, rfl, h1⟩ := cons_of_length_succ h0
  obtain ⟨x2, x3, rfl⟩ := list_shape_2 h1
  exact ⟨x0, x1, x2, x3, rfl⟩

/-- Explicit shape of a list of length 5. -/
theorem list_shape_5 {α : Type} {l : List α} (h : l.length = 5) :
    ∃ x0 x1 x2 x3 x4, l = [x0, x1, x2, x3, x4] := by
  obtain ⟨x0, t0, rfl, h0⟩ := cons_of_length_succ h
  obtain ⟨x1, x2, x3, x4, rfl⟩ := list_shape_4 h0
  exact ⟨x0, x1, x2, x3, x4, rfl⟩

/-- Explicit shape of a list of length 6. -/
theorem list_shape_6 {α : Type} {l : List α} (h : l.length = 6) :
    ∃ x0 x1 x2 x3 x4 x5, l = [x0, x1, x2, x3, x4, x5] := by
  obtain ⟨x0, t0, rfl, h0⟩ := cons_of_length_succ h
  obtain ⟨x1, x2, x3, x4, x5, rfl⟩ := list_shape_5 h0
  exact ⟨x0, x1, x2, x3, x4, x5, rfl⟩

/-- Explicit shape of a list of length 15. -/
theorem list_shape_15 {α : Type} {l : List α} (h : l.length = 15) :
    ∃ x0 x1 x2 x3 x4 x5 x6 x7 x8 x9 x10 x11 x12 x13 x14,
      l = [x0, x1, x2, x3, x4, x5, x6, x7, x8, x9, x10, x11, x12, x13, x14] := by
  obtain ⟨x0, t0, rfl, h0⟩ := cons_of_length_succ h
  obtain ⟨x1, t1, rfl, h1⟩ := cons_of_length_succ h0
  obtain ⟨x2, t2, rfl, h2⟩ := cons_of_length_succ h1
  obtain ⟨x3, t3, rfl, h3⟩ := cons_of_length_succ h2
  obtain ⟨x4, t4, rfl, h4⟩ := cons_of_length_succ h3
  obtain ⟨x5, t5, rfl, h5⟩ := cons_of_length_succ h4
  obtain ⟨x6, t6, rfl, h6⟩ := cons_of_length_succ h5
  obtain ⟨x7, t7, rfl, h7⟩ := cons_of_length_succ h6
  obtain ⟨x8, t8, rfl, h8⟩ := cons_of_length_succ h7
  obtain ⟨x9, t9, rfl, h9⟩ := cons_of_length_succ h8
  obtain ⟨x10, x11, x12, x13, x14, rfl⟩ := list_shape_5 h9
  exact ⟨x0, x1, x2, x3, x4, x5, x6, x7, x8, x9, x10, x11, x12, x13, x14, rfl⟩

/-! ### InfoRecord: the decoded form of the 166-byte info_v2 packet body

Field set and order follow decode_info_v2 in ilidar-tool.py (lines 149-259).
-/

@[ext]
structure InfoRecord where
  ilidar_version : String
  sensor_sn : Nat
  sensor_hw_id : List Nat
  sensor_fw_ver : List Nat
  sensor_fw_date : List Nat
  sensor_fw_time : List Nat
  sensor_calib_id : Nat
  sensor_fw0_ver : List Nat
  sensor_fw1_ver : List Nat
  sensor_fw2_ver : List Nat
  sensor_model_id : Nat
  sensor_boot_ctrl : Nat
  capture_mode : Nat
  capture_row : Nat
  capture_shutter : List Nat
  capture_limit : List Nat
  capture_period_us : Nat
  capture_seq : Nat
  data_output : Nat
  data_baud : Nat
  data_sensor_ip : List Nat
  data_dest_ip : List Nat
  data_subnet : List Nat
  data_gateway : List Nat
  data_port : Nat
  data_mac_addr : List Nat
  sync : Nat
  sync_trig_delay_us : Nat
  sync_ill_delay_us : List Nat
  sync_trig_trim_us : Nat
  sync_ill_trim_us : Nat
  sync_output_delay_us : Nat
  arb : Nat
  arb_timeout : Nat
  lock : Nat
  deriving Repr, DecidableEq

/-- Shallow embedding of encode_info_v2 (ilidar-tool.py lines 61-146).
The source fills a 166-cell bytearray cell by cell; the list below gives the
cells in offset order.  The loop for i in range(2, 70) zeroes offsets 2..69,
and offset 70 is never assigned, so it keeps the bytearray's initial 0.
List indexing src[k] of the source becomes List.getD k 0. -/
def encode_info_v2 (src : InfoRecord) : List Nat :=
  [src.sensor_sn % 256,                                   -- dst[0]
   src.sensor_sn / 256] ++                                -- dst[1]
  List.replicate 68 0 ++                                  -- dst[2] .. dst[69]
  [0] ++                                                  -- dst[70] (untouched)
  [src.capture_mode,                                      -- dst[71]
   src.capture_row,                                       -- dst[72]
   (src.capture_shutter.getD 0 0 >>> 0) &&& 0xFF,         -- dst[73]
   (src.capture_shutter.getD 0 0 >>> 8) &&& 0xFF,         -- dst[74]
   (src.capture_shutter.getD 1 0 >>> 0) &&& 0xFF,         -- dst[75]
   (src.capture_shutter.getD 1 0 >>> 8) &&& 0xFF,         -- dst[76]
   (src.capture_shutter.getD 2 0 >>> 0) &&& 0xFF,         -- dst[77]
   (src.capture_shutter.getD 2 0 >>> 8) &&& 0xFF,         -- dst[78]
   (src.capture_shutter.getD 3 0 >>> 0) &&& 0xFF,         -- dst[79]
   (src.capture_shutter.getD 3 0 >>> 8) &&& 0xFF,         -- dst[80]
   (src.capture_shutter.getD 4 0 >>> 0) &&& 0xFF,         -- dst[81]
   (src.capture_shutter.getD 4 0 >>> 8) &&& 0xFF,         -- dst[82]
   (src.capture_limit.getD 0 0 >>> 0) &&& 0xFF,           -- dst[83]
   (src.capture_limit.getD 0 0 >>> 8) &&& 0xFF,           -- dst[84]
   (src.capture_limit.getD 1 0 >>> 0) &&& 0xFF,           -- dst[85]
   (src.capture_limit.getD 1 0 >>> 8) &&& 0xFF,           -- dst[86]
   (src.capture_period_us >>> 0) &&& 0xFF,                -- dst[87]
   (src.capture_period_us >>> 8) &&& 0xFF,                -- dst[88]
   (src.capture_period_us >>> 16) &&& 0xFF,               -- dst[89]
   (src.capture_period_us >>> 24) &&& 0xFF,               -- dst[90]
   src.capture_seq,                                       -- dst[91]
   src.data_output,                                       -- dst[92]
   (src.data_baud >>> 0) &&& 0xFF,                        -- dst[93]
   (src.data_baud >>> 8) &&& 0xFF,                        -- dst[94]
   (src.data_baud >>> 16) &&& 0xFF,                       -- dst[95]
   (src.data_baud >>> 24) &&& 0xFF,                       -- dst[96]
   src.data_sensor_ip.getD 0 0,                           -- dst[97:101]
   src.data_sensor_ip.getD 1 0,
   src.data_sensor_ip.getD 2 0,
   src.data_sensor_ip.getD 3 0,
   src.data_dest_ip.getD 0 0,                             -- dst[101:105]
   src.data_dest_ip.getD 1 0,
   src.data_dest_ip.getD 2 0,
   src.data_dest_ip.getD 3 0,
   src.data_subnet.getD 0 0,                              -- dst[105:109]
   src.data_subnet.getD 1 0,
   src.data_subnet.getD 2 0,
   src.data_subnet.getD 3 0,
   src.data_gateway.getD 0 0,                             -- dst[109:113]
   src.data_gateway.getD 1 0,
   src.data_gateway.getD 2 0,
   src.data_gateway.getD 3 0,
   (src.data_port >>> 0) &&& 0xFF,                        -- dst[113]
   (src.data_port >>> 8) &&& 0xFF,                        -- dst[114]
   src.data_mac_addr.getD 0 0,                            -- dst[115:121]
   src.data_mac_addr.getD 1 0,
   src.data_mac_addr.getD 2 0,
   src.data_mac_addr.getD 3 0,
   src.data_mac_addr.getD 4 0,
   src.data_mac_addr.getD 5 0,
   src.sync,                                              -- dst[121]
   (src.sync_trig_delay_us >>> 0) &&& 0xFF,               -- dst[122]
   (src.sync_trig_delay_us >>> 8) &&& 0xFF,               -- dst[123]
   (src.sync_trig_delay_us >>> 16) &&& 0xFF,              -- dst[124]
   (src.sync_trig_delay_us >>> 24) &&& 0xFF,              -- dst[125]
   (src.sync_ill_delay_us.getD 0 0 >>> 0) &&& 0xFF,       -- dst[126]
   (src.sync_ill_delay_us.getD 0 0 >>> 8) &&& 0xFF,       -- dst[127]
   (src.sync_ill_delay_us.getD 1 0 >>> 0) &&& 0xFF,
   (src.sync_ill_delay_us.getD 1 0 >>> 8) &&& 0xFF,
   (src.sync_ill_delay_us.getD 2 0 >>> 0) &&& 0xFF,
   (src.sync_ill_delay_us.getD 2 0 >>> 8) &&& 0xFF,
   (src.sync_ill_delay_us.getD 3 0 >>> 0) &&& 0xFF,
   (src.sync_ill_delay_us.getD 3 0 >>> 8) &&& 0xFF,
   (src.sync_ill_delay_us.getD 4 0 >>> 0) &&& 0xFF,
   (src.sync_ill_delay_us.getD 4 0 >>> 8) &&& 0xFF,
   (src.sync_ill_delay_us.getD 5 0 >>> 0) &&& 0xFF,
   (src.sync_ill_delay_us.getD 5 0 >>> 8) &&& 0xFF,
   (src.sync_ill_delay_us.getD 6 0 >>> 0) &&& 0xFF,
   (src.sync_ill_delay_us.getD 6 0 >>> 8) &&& 0xFF,
   (src.sync_ill_delay_us.getD 7 0 >>> 0) &&& 0xFF,
   (src.sync_ill_delay_us.getD 7 0 >>> 8) &&& 0xFF,
   (src.sync_ill_delay_us.getD 8 0 >>> 0) &&& 0xFF,
   (src.sync_ill_delay_us.getD 8 0 >>> 8) &&& 0xFF,
   (src.sync_ill_delay_us.getD 9 0 >>> 0) &&& 0xFF,
   (src.sync_ill_delay_us.getD 9 0 >>> 8) &&& 0xFF,
   (src.sync_ill_delay_us.getD 10 0 >>> 0) &&& 0xFF,
   (src.sync_ill_delay_us.getD 10 0 >>> 8) &&& 0xFF,
   (src.sync_ill_delay_us.getD 11 0 >>> 0) &&& 0xFF,
   (src.sync_ill_delay_us.getD 11 0 >>> 8) &&& 0xFF,
   (src.sync_ill_delay_us.getD 12 0 >>> 0) &&& 0xFF,
   (src.sync_ill_delay_us.getD 12 0 >>> 8) &&& 0xFF,
   (src.sync_ill_delay_us.getD 13 0 >>> 0) &&& 0xFF,
   (src.sync_ill_delay_us.getD 13 0 >>> 8) &&& 0xFF,
   (src.sync_ill_delay_us.getD 14 0 >>> 0) &&& 0xFF,      -- dst[154]
   (src.sync_ill_delay_us.getD 14 0 >>> 8) &&& 0xFF,      -- dst[155]
   src.sync_trig_trim_us,                                 -- dst[156]
   src.sync_ill_trim_us,                                  -- dst[157]
   (src.sync_output_delay_us >>> 0) &&& 0xFF,             -- dst[158]
   (src.sync_output_delay_us >>> 8) &&& 0xFF,             -- dst[159]
   src.arb,                                               -- dst[160]
   (src.arb_timeout >>> 0) &&& 0xFF,                      -- dst[161]
   (src.arb_timeout >>> 8) &&& 0xFF,                      -- dst[162]
   (src.arb_timeout >>> 16) &&& 0xFF,                     -- dst[163]
   (src.arb_timeout >>> 24) &&& 0xFF,                     -- dst[164]
   0]                                                     -- dst[165] lock flag

/-- Shallow embedding of decode_info_v2 (ilidar-tool.py lines 149-259).
Slices src[a:b] of the source become (src.drop a).take (b - a). -/
def decode_info_v2 (src : List Nat) : InfoRecord :=
  { ilidar_version := "1.5.X"
    sensor_sn := (src.getD 1 0 <<< 8) ||| src.getD 0 0
    sensor_hw_id := (src.drop 2).take 30
    sensor_fw_ver := (src.drop 32).take 3
    sensor_fw_date := (src.drop 35).take 12
    sensor_fw_time := (src.drop 47).take 9
    sensor_calib_id :=
      (src.getD 59 0 <<< 24) ||| (src.getD 58 0 <<< 16) |||
        (src.getD 57 0 <<< 8) ||| src.getD 56 0
    sensor_fw0_ver := (src.drop 60).take 3
    sensor_fw1_ver := (src.drop 63).take 3
    sensor_fw2_ver := (src.drop 66).take 3
    sensor_model_id := src.getD 69 0
    sensor_boot_ctrl := src.getD 70 0
    capture_mode := src.getD 71 0
    capture_row := src.getD 72 0
    capture_shutter :=
      [(src.getD 74 0 <<< 8) ||| src.getD 73 0,
       (src.getD 76 0 <<< 8) ||| src.getD 75 0,
       (src.getD 78 0 <<< 8) ||| src.getD 77 0,
       (src.getD 80 0 <<< 8) ||| src.getD 79 0,
       (src.getD 82 0 <<< 8) ||| src.getD 81 0]
    capture_limit :=
      [(src.getD 84 0 <<< 8) ||| src.getD 83 0,
       (src.getD 86 0 <<< 8) ||| src.getD 85 0]
    capture_period_us :=
      (src.getD 90 0 <<< 24) ||| (src.getD 89 0 <<< 16) |||
        (src.getD 88 0 <<< 8) ||| src.getD 87 0
    capture_seq := src.getD 91 0
    data_output := src.getD 92 0
    data_baud :=
      (src.getD 96 0 <<< 24) ||| (src.getD 95 0 <<< 16) |||
        (src.getD 94 0 <<< 8) ||| src.getD 93 0
    data_sensor_ip := (src.drop 97).take 4
    data_dest_ip := (src.drop 101).take 4
    data_subnet := (src.drop 105).take 4
    data_gateway := (src.drop 109).take 4
    data_port := (src.getD 114 0 <<< 8) ||| src.getD 113 0
    data_mac_addr := (src.drop 115).take 6
    sync := src.getD 121 0
    sync_trig_delay_us :=
      (src.getD 125 0 <<< 24) ||| (src.getD 124 0 <<< 16) |||
        (src.getD 123 0 <<< 8) ||| src.getD 122 0
    sync_ill_delay_us :=
      [(src.getD 127 0 <<< 8) ||| src.getD 126 0,
       (src.getD 129 0 <<< 8) ||| src.getD 128 0,
       (src.getD 131 0 <<< 8) ||| src.getD 130 0,
       (src.getD 133 0 <<< 8) ||| src.getD 132 0,
       (src.getD 135 0 <<< 8) ||| src.getD 134 0,
       (src.getD 137 0 <<< 8) ||| src.getD 136 0,
       (src.getD 139 0 <<< 8) ||| src.getD 138 0,
       (src.getD 141 0 <<< 8) ||| src.getD 140 0,
       (src.getD 143 0 <<< 8) ||| src.getD 142 0,
       (src.getD 145 0 <<< 8) ||| src.getD 144 0,
       (src.getD 147 0 <<< 8) ||| src.getD 146 0,
       (src.getD 149 0 <<< 8) ||| src.getD 148 0,
       (src.getD 151 0 <<< 8) ||| src.getD 150 0,
       (src.getD 153 0 <<< 8) ||| src.getD 152 0,
       (src.getD 155 0 <<< 8) ||| src.getD 154 0]
    sync_trig_trim_us := src.getD 156 0
    sync_ill_trim_us := src.getD 157 0
    sync_output_delay_us := (src.getD 159 0 <<< 8) ||| src.getD 158 0
    arb := src.getD 160 0
    arb_timeout :=
      (src.getD 164 0 <<< 24) ||| (src.getD 163 0 <<< 16) |||
        (src.getD 162 0 <<< 8) ||| src.getD 161 0
    lock := src.getD 165 0 }

/-- Validity of an InfoRecord: every scalar field fits its wire width and
every array field has its documented length with byte-sized entries
(assignment of a value outside 0..255 into a Python bytearray cell raises). -/
def InfoValid (r : InfoRecord) : Prop :=
  r.sensor_sn < 65536 ∧
  r.sensor_hw_id.length = 30 ∧ (∀ x ∈ r.sensor_hw_id, x < 256) ∧
  r.sensor_fw_ver.length = 3 ∧ (∀ x ∈ r.sensor_fw_ver, x < 256) ∧
  r.sensor_fw_date.length = 12 ∧ (∀ x ∈ r.sensor_fw_date, x < 256) ∧
  r.sensor_fw_time.length = 9 ∧ (∀ x ∈ r.sensor_fw_time, x < 256) ∧
  r.sensor_calib_id < 4294967296 ∧
  r.sensor_fw0_ver.length = 3 ∧ (∀ x ∈ r.sensor_fw0_ver, x < 256) ∧
  r.sensor_fw1_ver.length = 3 ∧ (∀ x ∈ r.sensor_fw1_ver, x < 256) ∧
  r.sensor_fw2_ver.length = 3 ∧ (∀ x ∈ r.sensor_fw2_ver, x < 256) ∧
  r.sensor_model_id < 256 ∧ r.sensor_boot_ctrl < 256 ∧
  r.capture_mode < 256 ∧ r.capture_row < 256 ∧
  r.capture_shutter.length = 5 ∧ (∀ x ∈ r.capture_shutter, x < 65536) ∧
  r.capture_limit.length = 2 ∧ (∀ x ∈ r.capture_limit, x < 65536) ∧
  r.capture_period_us < 4294967296 ∧
  r.capture_seq < 256 ∧ r.data_output < 256 ∧ r.data_baud < 4294967296 ∧
  r.data_sensor_ip.length = 4 ∧ (∀ x ∈ r.data_sensor_ip, x < 256) ∧
  r.data_dest_ip.length = 4 ∧ (∀ x ∈ r.data_dest_ip, x < 256) ∧
  r.data_subnet.length = 4 ∧ (∀ x ∈ r.data_subnet, x < 256) ∧
  r.data_gateway.length = 4 ∧ (∀ x ∈ r.data_gateway, x < 256) ∧
  r.data_port < 65536 ∧
  r.data_mac_addr.length = 6 ∧ (∀ x ∈ r.data_mac_addr, x < 256) ∧
  r.sync < 256 ∧ r.sync_trig_delay_us < 4294967296 ∧
  r.sync_ill_delay_us.length = 15 ∧ (∀ x ∈ r.sync_ill_delay_us, x < 65536) ∧
  r.sync_trig_trim_us < 256 ∧ r.sync_ill_trim_us < 256 ∧
  r.sync_output_delay_us < 65536 ∧
  r.arb < 256 ∧ r.arb_timeout < 4294967296 ∧ r.lock < 256

instance (r : InfoRecord) : Decidable (InfoValid r) := by
  unfold InfoValid
  infer_instance

/-- The record decode_info_v2 actually reconstructs from encode_info_v2 r:
identical to r on the writable fields, while the read-only region
(offsets 2..=70, i.e. hw id, firmware metadata, calibration id, per-slot
versions, model id and boot control) and the lock byte come back as zeros. -/
def readonly_cleared (r : InfoRecord) : InfoRecord :=
  { r with
    ilidar_version := "1.5.X"
    sensor_hw_id := List.replicate 30 0
    sensor_fw_ver := List.replicate 3 0
    sensor_fw_date := List.replicate 12 0
    sensor_fw_time := List.replicate 9 0
    sensor_calib_id := 0
    sensor_fw0_ver := List.replicate 3 0
    sensor_fw1_ver := List.replicate 3 0
    sensor_fw2_ver := List.replicate 3 0
    sensor_model_id := 0
    sensor_boot_ctrl := 0
    lock := 0 }

/-- Variant of recomb16 in the shape left after simp rewrites x >>> 0 to x. -/
theorem recomb16' (x : Nat) (h : x < 65536) :
    (((x >>> 8) &&& 255) <<< 8) ||| (x &&& 255) = x := by
  have := recomb16 x h
  rwa [Nat.shiftRight_zero] at this

/-- Variant of recomb32 in the shape left after simp rewrites x >>> 0 to x. -/
theorem recomb32' (x : Nat) (h : x < 4294967296) :
    (((x >>> 24) &&& 255) <<< 24) ||| (((x >>> 16) &&& 255) <<< 16) |||
      (((x >>> 8) &&& 255) <<< 8) ||| (x &&& 255) = x := by
  have := recomb32 x h
  rwa [Nat.shiftRight_zero] at this

set_option maxHeartbeats 2000000 in
/-- C1 (amended): for every valid InfoRecord r, decode_info_v2 (encode_info_v2 r)
equals r on every writable field, while the read-only region at byte offsets
2..=70 — which includes sensor_model_id (offset 69) and sensor_boot_ctrl
(offset 70), both left unwritten by encode_info_v2 — and the lock byte
(offset 165) come back as zero. -/
theorem C1_info_roundtrip (r : InfoRecord) (h : InfoValid r) :
    decode_info_v2 (encode_info_v2 r) = readonly_cleared r := by
  obtain ⟨hsn, hhwl, hhwb, hfvl, hfvb, hfdl, hfdb, hftl, hftb, hcal, h0l, h0b,
    h1l, h1b, h2l, h2b, hmodel, hboot, hmode, hrow, hshl, hshb, hliml, hlimb,
    hper, hseq, hout, hbaud, hsipl, hsipb, hdipl, hdipb, hsubl, hsubb, hgwl,
    hgwb, hport, hmacl, hmacb, hsync, htrig, hilll, hillb, htt, hit, hod,
    harb, hat, hlock⟩ := h
  obtain ⟨s0, s1, s2, s3, s4, hsh⟩ := list_shape_5 hshl
  obtain ⟨l0, l1, hlim⟩ := list_shape_2 hliml
  obtain ⟨a0, a1, a2, a3, hsip⟩ := list_shape_4 hsipl
  obtain ⟨b0, b1, b2, b3, hdip⟩ := list_shape_4 hdipl
  obtain ⟨c0, c1, c2, c3, hsub⟩ := list_shape_4 hsubl
  obtain ⟨g0, g1, g2, g3, hgw⟩ := list_shape_4 hgwl
  obtain ⟨m0, m1, m2, m3, m4, m5, hmac⟩ := list_shape_6 hmacl
  obtain ⟨i0, i1, i2, i3, i4, i5, i6, i7, i8, i9, i10, i11, i12, i13, i14, hill⟩ :=
    list_shape_15 hilll
  rw [hsh] at hshb
  rw [hlim] at hlimb
  rw [hill] at hillb
  simp only [List.mem_cons, List.not_mem_nil, or_false, forall_eq_or_imp,
    forall_eq] at hshb hlimb hillb
  simp only [decode_info_v2, readonly_cleared, InfoRecord.mk.injEq]
  repeat' apply And.intro
  any_goals rfl
  all_goals try trivial
  all_goals simp only [encode_info_v2]
  all_goals simp [hsh, hlim, hsip, hdip, hsub, hgw, hmac, hill]
  · exact recomb_sn _ (by omega)
  · exact ⟨recomb16' _ (by omega), recomb16' _ (by omega), recomb16' _ (by omega),
      recomb16' _ (by omega), recomb16' _ (by omega)⟩
  · exact ⟨recomb16' _ (by omega), recomb16' _ (by omega)⟩
  · exact recomb32' _ (by omega)
  · exact recomb32' _ (by omega)
  · exact recomb16' _ (by omega)
  · exact recomb32' _ (by omega)
  · exact ⟨recomb16' _ (by omega), recomb16' _ (by omega), recomb16' _ (by omega),
      recomb16' _ (by omega), recomb16' _ (by omega), recomb16' _ (by omega),
      recomb16' _ (by omega), recomb16' _ (by omega), recomb16' _ (by omega),
      recomb16' _ (by omega), recomb16' _ (by omega), recomb16' _ (by omega),
      recomb16' _ (by omega), recomb16' _ (by omega), recomb16' _ (by omega)⟩
  · exact recomb16' _ (by omega)
  · exact recomb32' _ (by omega)

/-- Concrete valid record used to exercise the C1 codec theorems;
its sensor_model_id and sensor_boot_ctrl are non-zero. -/
def c1_record : InfoRecord :=
  { ilidar_version := "1.5.X"
    sensor_sn := 456
    sensor_hw_id := List.replicate 30 17
    sensor_fw_ver := [4, 5, 1]
    sensor_fw_date := List.replicate 12 65
    sensor_fw_time := List.replicate 9 48
    sensor_calib_id := 77
    sensor_fw0_ver := [4, 5, 1]
    sensor_fw1_ver := [0, 0, 1]
    sensor_fw2_ver := [1, 0, 1]
    sensor_model_id := 3
    sensor_boot_ctrl := 7
    capture_mode := 1
    capture_row := 160
    capture_shutter := [400, 80, 16, 8000, 3]
    capture_limit := [200, 200]
    capture_period_us := 100000
    capture_seq := 0
    data_output := 1
    data_baud := 115200
    data_sensor_ip := [192, 168, 5, 200]
    data_dest_ip := [192, 168, 5, 2]
    data_subnet := [255, 255, 255, 0]
    data_gateway := [192, 168, 5, 1]
    data_port := 7256
    data_mac_addr := [0, 1, 2, 3, 4, 5]
    sync := 0
    sync_trig_delay_us := 0
    sync_ill_delay_us := [0, 0, 0, 0, 0, 0, 0, 0, 0, 0, 0, 0, 0, 0, 0]
    sync_trig_trim_us := 0
    sync_ill_trim_us := 0
    sync_output_delay_us := 0
    arb := 0
    arb_timeout := 1500000
    lock := 0 }

/-- C1 (counterexample): the claim says sensor_model_id (offset 69) and
sensor_boot_ctrl (offset 70) round-trip unchanged through
decode_info_v2 after encode_info_v2, but encode_info_v2 zeroes offsets
2..=69 and never writes offset 70, so both fields decode as 0 for the
valid record c1_record that has them non-zero. -/
theorem C1_roundtrip_counterexample :
    InfoValid c1_record ∧
    (decode_info_v2 (encode_info_v2 c1_record)).sensor_model_id ≠
      c1_record.sensor_model_id ∧
    (decode_info_v2 (encode_info_v2 c1_record)).sensor_boot_ctrl ≠
      c1_record.sensor_boot_ctrl := by
  refine ⟨by decide, by decide, by decide⟩

/-- C1 (witness): the amended round-trip theorem applied to the concrete
valid record c1_record. -/
theorem C1_roundtrip_witness :
    InfoValid c1_record ∧
    decode_info_v2 (encode_info_v2 c1_record) = readonly_cleared c1_record :=
  ⟨by decide, C1_info_roundtrip c1_record (by decide)⟩

/-! ### CRC-16/CCITT (C3)

CRC16Table and get_crc16 are translated from ilidar-tool.py lines 424-466.
The bitwise reference definitions below follow the spec's parameters:
width 16, polynomial 0x1021, initial value 0xFFFF, no reflection, no
final xor.
-/

/-- CRC-16 CCITT lookup table (ilidar-tool.py lines 424-457). -/
def CRC16Table : List Nat :=
  [0x0000, 0x1021, 0x2042, 0x3063, 0x4084, 0x50a5, 0x60c6, 0x70e7,
   0x8108, 0x9129, 0xa14a, 0xb16b, 0xc18c, 0xd1ad, 0xe1ce, 0xf1ef,
   0x1231, 0x0210, 0x3273, 0x2252, 0x52b5, 0x4294, 0x72f7, 0x62d6,
   0x9339, 0x8318, 0xb37b, 0xa35a, 0xd3bd, 0xc39c, 0xf3ff, 0xe3de,
   0x2462, 0x3443, 0x0420, 0x1401, 0x64e6, 0x74c7, 0x44a4, 0x5485,
   0xa56a, 0xb54b, 0x8528, 0x9509, 0xe5ee, 0xf5cf, 0xc5ac, 0xd58d,
   0x3653, 0x2672, 0x1611, 0x0630, 0x76d7, 0x66f6, 0x5695, 0x46b4,
   0xb75b, 0xa77a, 0x9719, 0x8738, 0xf7df, 0xe7fe, 0xd79d, 0xc7bc,
   0x48c4, 0x58e5, 0x6886, 0x78a7, 0x0840, 0x1861, 0x2802, 0x3823,
   0xc9cc, 0xd9ed, 0xe98e, 0xf9af, 0x8948, 0x9969, 0xa90a, 0xb92b,
   0x5af5, 0x4ad4, 0x7ab7, 0x6a96, 0x1a71, 0x0a50, 0x3a33, 0x2a12,
   0xdbfd, 0xcbdc, 0xfbbf, 0xeb9e, 0x9b79, 0x8b58, 0xbb3b, 0xab1a,
   0x6ca6, 0x7c87, 0x4ce4, 0x5cc5, 0x2c22, 0x3c03, 0x0c60, 0x1c41,
   0xedae, 0xfd8f, 0xcdec, 0xddcd, 0xad2a, 0xbd0b, 0x8d68, 0x9d49,
   0x7e97, 0x6eb6, 0x5ed5, 0x4ef4, 0x3e13, 0x2e32, 0x1e51, 0x0e70,
   0xff9f, 0xefbe, 0xdfdd, 0xcffc, 0xbf1b, 0xaf3a, 0x9f59, 0x8f78,
   0x9188, 0x81a9, 0xb1ca, 0xa1eb, 0xd10c, 0xc12d, 0xf14e, 0xe16f,
   0x1080, 0x00a1, 0x30c2, 0x20e3, 0x5004, 0x4025, 0x7046, 0x6067,
   0x83b9, 0x9398, 0xa3fb, 0xb3da, 0xc33d, 0xd31c, 0xe37f, 0xf35e,
   0x02b1, 0x1290, 0x22f3, 0x32d2, 0x4235, 0x5214, 0x6277, 0x7256,
   0xb5ea, 0xa5cb, 0x95a8, 0x8589, 0xf56e, 0xe54f, 0xd52c, 0xc50d,
   0x34e2, 0x24c3, 0x14a0, 0x0481, 0x7466, 0x6447, 0x5424, 0x4405,
   0xa7db, 0xb7fa, 0x8799, 0x97b8, 0xe75f, 0xf77e, 0xc71d, 0xd73c,
   0x26d3, 0x36f2, 0x0691, 0x16b0, 0x6657, 0x7676, 0x4615, 0x5634,
   0xd94c, 0xc96d, 0xf90e, 0xe92f, 0x99c8, 0x89e9, 0xb98a, 0xa9ab,
   0x5844, 0x4865, 0x7806, 0x6827, 0x18c0, 0x08e1, 0x3882, 0x28a3,
   0xcb7d, 0xdb5c, 0xeb3f, 0xfb1e, 0x8bf9, 0x9bd8, 0xabbb, 0xbb9a,
   0x4a75, 0x5a54, 0x6a37, 0x7a16, 0x0af1, 0x1ad0, 0x2ab3, 0x3a92,
   0xfd2e, 0xed0f, 0xdd6c, 0xcd4d, 0xbdaa, 0xad8b, 0x9de8, 0x8dc9,
   0x7c26, 0x6c07, 0x5c64, 0x4c45, 0x3ca2, 0x2c83, 0x1ce0, 0x0cc1,
   0xef1f, 0xff3e, 0xcf5d, 0xdf7c, 0xaf9b, 0xbfba, 0x8fd9, 0x9ff8,
   0x6e17, 0x7e36, 0x4e55, 0x5e74, 0x2e93, 0x3eb2, 0x0ed1, 0x1ef0]

/-- Shallow embedding of get_crc16 (ilidar-tool.py lines 460-466):
crc starts at 0xFFFF; per byte, crc = (crc << 8) ^ table[(crc >> 8) ^ byte],
then masked to 16 bits. -/
def get_crc16 (packet : List Nat) : Nat :=
  packet.foldl
    (fun crc byte =>
      ((crc <<< 8) ^^^ CRC16Table.getD ((crc >>> 8) ^^^ byte) 0) &&& 0xFFFF)
    0xFFFF

/-- One bit-serial step of the reference CRC-16/CCITT algorithm: shift the
16-bit register left by one and xor in the polynomial 0x1021 when the bit
shifted out was set. -/
def crc16_bitstep (crc : Nat) : Nat :=
  if crc.testBit 15 then ((crc <<< 1) ^^^ 0x1021) &&& 0xFFFF
  else (crc <<< 1) &&& 0xFFFF

/-- Reference byte step: xor the byte into the high half of the register and
run eight bit-serial steps. -/
def crc16_ref_step (crc byte : Nat) : Nat :=
  crc16_bitstep^[8] (crc ^^^ (byte <<< 8))

/-- Reference CRC-16/CCITT of a byte sequence: initial value 0xFFFF, MSB-first
bit-serial processing, no reflection, no final xor. -/
def crc16_ccitt_ref (packet : List Nat) : Nat :=
  packet.foldl crc16_ref_step 0xFFFF

/-- The two halves of a 16-bit split recombine under xor. -/
theorem split16 (crc : Nat) : ((crc >>> 8) <<< 8) ^^^ (crc &&& 255) = crc := by
  apply Nat.eq_of_testBit_eq
  intro i
  have h255 : (255 : Nat).testBit i = decide (i < 8) := by
    have := Nat.testBit_two_pow_sub_one 8 i
    norm_num at this
    exact this
  simp only [Nat.testBit_xor, Nat.testBit_shiftLeft, Nat.testBit_shiftRight,
    Nat.testBit_and, h255]
  rcases Nat.lt_or_ge i 8 with hi | hi
  · simp [Nat.not_le_of_lt hi, hi]
  · have : 8 + (i - 8) = i := by omega
    simp [hi, this, Nat.not_lt_of_le hi]

/-- Left shift distributes over xor. -/
theorem xor_shiftLeft (a b n : Nat) :
    (a ^^^ b) <<< n = (a <<< n) ^^^ (b <<< n) := by
  apply Nat.eq_of_testBit_eq
  intro i
  simp only [Nat.testBit_xor, Nat.testBit_shiftLeft]
  cases Nat.decLe n i with
  | isTrue hle => simp [hle]
  | isFalse hlt => simp [hlt]

/-- Masking a left shift by 8 to 16 bits keeps the low byte shifted. -/
theorem mask_shl8 (x : Nat) : (x <<< 8) &&& 65535 = (x &&& 255) <<< 8 := by
  apply Nat.eq_of_testBit_eq
  intro i
  have h255 : (255 : Nat).testBit (i - 8) = decide (i - 8 < 8) := by
    have := Nat.testBit_two_pow_sub_one 8 (i - 8)
    norm_num at this
    exact this
  have h65535 : (65535 : Nat).testBit i = decide (i < 16) := by
    have := Nat.testBit_two_pow_sub_one 16 i
    norm_num at this
    exact this
  simp only [Nat.testBit_and, Nat.testBit_shiftLeft, h255, h65535]
  rcases Nat.lt_or_ge i 8 with hi | hi
  · simp [Nat.not_le_of_lt hi]
  · simp [hi, Bool.and_assoc]
    congr 1
    simp only [decide_eq_decide]
    omega

/-- Left commutativity of xor on Nat. -/
theorem nat_xor_left_comm (x y z : Nat) : x ^^^ (y ^^^ z) = y ^^^ (x ^^^ z) := by
  rw [← Nat.xor_assoc, Nat.xor_comm x y, Nat.xor_assoc]

/-- The bit-serial CRC step is linear over xor. -/
theorem crc16_bitstep_xor (a b : Nat) :
    crc16_bitstep (a ^^^ b) = crc16_bitstep a ^^^ crc16_bitstep b := by
  unfold crc16_bitstep
  rw [Nat.testBit_xor]
  cases ha : a.testBit 15 <;> cases hb : b.testBit 15 <;>
    simp [← Nat.and_xor_distrib_right, xor_shiftLeft, Nat.xor_assoc,
      Nat.xor_comm, nat_xor_left_comm]

/-- Eight bit-serial steps are linear over xor. -/
theorem crc16_iterate_xor (n a b : Nat) :
    crc16_bitstep^[n] (a ^^^ b) =
      crc16_bitstep^[n] a ^^^ crc16_bitstep^[n] b := by
  induction n generalizing a b with
  | zero => rfl
  | succ k ih =>
    rw [Function.iterate_succ_apply, Function.iterate_succ_apply,
      Function.iterate_succ_apply, crc16_bitstep_xor, ih]

/-- Eight bit-serial steps on a bare byte only shift it into the high half. -/
theorem crc16_low_byte : ∀ lo : Fin 256, crc16_bitstep^[8] lo.val = lo.val <<< 8 := by
  decide

/-- The 256-entry lookup table agrees with the bitwise reference: entry i is
eight bit-serial steps applied to i <<< 8. -/
theorem crc16_table_agrees :
    ∀ i : Fin 256, CRC16Table.getD i.val 0 = crc16_bitstep^[8] (i.val <<< 8) := by
  decide

/-- Every table entry fits in 16 bits. -/
theorem crc16_table_lt : ∀ i : Fin 256, CRC16Table.getD i.val 0 < 65536 := by
  decide

/-- One byte of the table-driven loop of get_crc16 equals the reference
byte step, for any 16-bit register value and byte. -/
theorem get_crc16_step_eq (crc byte : Nat) (hc : crc < 65536) (hb : byte < 256) :
    ((crc <<< 8) ^^^ CRC16Table.getD ((crc >>> 8) ^^^ byte) 0) &&& 65535 =
      crc16_ref_step crc byte := by
  have hhi : crc >>> 8 < 256 := by
    rw [Nat.shiftRight_eq_div_pow]
    omega
  have hidx : (crc >>> 8) ^^^ byte < 256 := by
    have h1 : crc >>> 8 < 2 ^ 8 := by
      rw [Nat.shiftRight_eq_div_pow]
      norm_num
      omega
    have h2 : byte < 2 ^ 8 := by
      norm_num
      omega
    calc (crc >>> 8) ^^^ byte < 2 ^ 8 := Nat.xor_lt_two_pow h1 h2
      _ = 256 := by norm_num
  have hlo : crc &&& 255 < 256 := by
    rw [land255]
    omega
  have htab : CRC16Table.getD ((crc >>> 8) ^^^ byte) 0 =
      crc16_bitstep^[8] (((crc >>> 8) ^^^ byte) <<< 8) :=
    crc16_table_agrees (Fin.mk ((crc >>> 8) ^^^ byte) hidx)
  have htlt : CRC16Table.getD ((crc >>> 8) ^^^ byte) 0 < 65536 :=
    crc16_table_lt (Fin.mk ((crc >>> 8) ^^^ byte) hidx)
  have key : crc ^^^ (byte <<< 8) =
      (((crc >>> 8) ^^^ byte) <<< 8) ^^^ (crc &&& 255) := by
    conv_lhs => rw [← split16 crc]
    rw [xor_shiftLeft]
    simp [Nat.xor_assoc, Nat.xor_comm, nat_xor_left_comm]
  rw [Nat.and_xor_distrib_right, mask_shl8]
  have hmask : CRC16Table.getD ((crc >>> 8) ^^^ byte) 0 &&& 65535 =
      CRC16Table.getD ((crc >>> 8) ^^^ byte) 0 := by
    have h16 : CRC16Table.getD ((crc >>> 8) ^^^ byte) 0 < 2 ^ 16 := htlt
    exact Nat.and_pow_two_sub_one_of_lt_two_pow h16
  rw [hmask, htab]
  unfold crc16_ref_step
  rw [key, crc16_iterate_xor, crc16_low_byte (Fin.mk (crc &&& 255) hlo)]
  exact Nat.xor_comm _ _

/-- The fold of the table-driven loop equals the fold of the reference,
from any 16-bit register state. -/
theorem get_crc16_fold_eq (packet : List Nat) :
    ∀ crc, crc < 65536 → (∀ b ∈ packet, b < 256) →
      packet.foldl
        (fun crc byte =>
          ((crc <<< 8) ^^^ CRC16Table.getD ((crc >>> 8) ^^^ byte) 0) &&& 0xFFFF)
        crc =
      packet.foldl crc16_ref_step crc := by
  induction packet with
  | nil => intro crc _ _; rfl
  | cons b t ih =>
    intro crc hc hall
    have hb : b < 256 := hall b (by simp)
    have hstep := get_crc16_step_eq crc b hc hb
    simp only [List.foldl_cons]
    rw [hstep]
    apply ih
    · rw [← hstep]
      have hmod : ((crc <<< 8) ^^^ CRC16Table.getD ((crc >>> 8) ^^^ b) 0) &&& 65535 =
          ((crc <<< 8) ^^^ CRC16Table.getD ((crc >>> 8) ^^^ b) 0) % 65536 :=
        Nat.and_pow_two_sub_one_eq_mod
          ((crc <<< 8) ^^^ CRC16Table.getD ((crc >>> 8) ^^^ b) 0) 16
      rw [hmod]
      omega
    · intro x hx
      exact hall x (by simp [hx])

/-- C3: get_crc16 implements CRC-16/CCITT with width 16, polynomial 0x1021,
initial value 0xFFFF, no reflection and no final xor: the 256-entry table
agrees with the bitwise reference definition, the table-driven loop computes
the bit-serial reference CRC on every byte sequence, and get_crc16 of the
ASCII bytes of the string 123456789 equals 0x29B1. -/
theorem C3_crc16_ccitt :
    (∀ i : Fin 256, CRC16Table.getD i.val 0 = crc16_bitstep^[8] (i.val <<< 8)) ∧
    (∀ packet : List Nat, (∀ b ∈ packet, b < 256) →
      get_crc16 packet = crc16_ccitt_ref packet) ∧
    get_crc16 [0x31, 0x32, 0x33, 0x34, 0x35, 0x36, 0x37, 0x38, 0x39] = 0x29B1 := by
  refine (And.intro crc16_table_agrees (And.intro ?_ (by decide)))
  intro packet hall
  exact get_crc16_fold_eq packet 0xFFFF (by norm_num) hall

/-- C3 (witness): the loop-vs-reference equality applied to a concrete byte
sequence with its byte-range hypothesis discharged by decide. -/
theorem C3_crc16_ccitt_witness :
    get_crc16 [0x31, 0x39, 0xA5] = crc16_ccitt_ref [0x31, 0x39, 0xA5] :=
  C3_crc16_ccitt.2.1 [0x31, 0x39, 0xA5] (by decide)


/-! ### Flash-block framing (C2, C8)

The block-transfer loop of cmd_update_run (ilidar-tool.py lines 1972-1993)
builds, for each block index, a packet
header(6) ++ hw_id(30) ++ [2,2,0] ++ fw_version(3), stamps the block index
at flash_head[38] (an offset inside the packet, header included), appends
the 1024-byte body read from the firmware file padded with 0xFF, the CRC-16
little-endian, and the tail.
-/

/-- Flash-block packet header (ilidar-tool.py line 1658; the source spells
it flash_block_headder). -/
def flash_block_headder : List Nat := [0xA5, 0x5A, 0x00, 0x01, 0x26, 0x04]

/-- Packet tail marker (ilidar-tool.py line 1659). -/
def tail : List Nat := [0xA5, 0x5A]

/-- Body of flash block i: the bytes file.read(1024) returns on the i-th
sequential 1024-byte read of the firmware file (= P[1024*i : 1024*(i+1)]),
padded with 0xFF to 1024 bytes; a read past the end gives all 0xFF
(ilidar-tool.py lines 1980-1987). -/
def flash_body (P : List Nat) (i : Nat) : List Nat :=
  let read_bin_data := (P.drop (1024 * i)).take 1024
  if read_bin_data = [] then List.replicate 1024 0xFF
  else if read_bin_data.length ≠ 1024 then
    read_bin_data ++ List.replicate (1024 - read_bin_data.length) 0xFF
  else read_bin_data

/-- Complete flash-block packet for block index i
(ilidar-tool.py lines 1975-1993). -/
def flash_block_packet (hw_id fw_version P : List Nat) (i : Nat) : List Nat :=
  let flash_head :=
    (flash_block_headder ++ hw_id ++ [2, 2, 0] ++ fw_version).set 38 (i &&& 0xFF)
  let flash_body_i := flash_body P i
  let flash_crc16 := get_crc16 flash_body_i
  flash_head ++ flash_body_i ++
    [flash_crc16 &&& 0xFF, (flash_crc16 >>> 8) &&& 0xFF] ++ tail

/-- Helper: getD through an append, index inside the left part. -/
theorem getD_append_left {l1 l2 : List Nat} {n : Nat} (h : n < l1.length)
    (d : Nat) : (l1 ++ l2).getD n d = l1.getD n d := by
  simp [List.getD_eq_getElem?_getD, List.getElem?_append_left h]

/-- Helper: getD through an append, index past the left part. -/
theorem getD_append_right {l1 l2 : List Nat} {n : Nat} (h : l1.length ≤ n)
    (d : Nat) : (l1 ++ l2).getD n d = l2.getD (n - l1.length) d := by
  simp [List.getD_eq_getElem?_getD, List.getElem?_append_right h]

/-- The flash-block body is always exactly 1024 bytes. -/
theorem flash_body_length (P : List Nat) (i : Nat) :
    (flash_body P i).length = 1024 := by
  unfold flash_body
  have hle : ((P.drop (1024 * i)).take 1024).length ≤ 1024 := by
    rw [List.length_take]
    omega
  by_cases h1 : (P.drop (1024 * i)).take 1024 = []
  · rw [if_pos h1]
    simp
  · rw [if_neg h1]
    by_cases h2 : ((P.drop (1024 * i)).take 1024).length ≠ 1024
    · rw [if_pos h2, List.length_append, List.length_replicate]
      omega
    · rw [if_neg h2]
      omega

/-- Byte j of the flash-block body is P[1024*i + j] when in range and 0xFF
otherwise. -/
theorem flash_body_getD (P : List Nat) (i j : Nat) (hj : j < 1024) :
    (flash_body P i).getD j 0 =
      if 1024 * i + j < P.length then P.getD (1024 * i + j) 0 else 0xFF := by
  unfold flash_body
  have hlen : ((P.drop (1024 * i)).take 1024).length =
      min 1024 (P.length - 1024 * i) := by
    rw [List.length_take, List.length_drop]
  have hget : ∀ k, k < ((P.drop (1024 * i)).take 1024).length →
      ((P.drop (1024 * i)).take 1024).getD k 0 = P.getD (1024 * i + k) 0 := by
    intro k hk
    have hk1024 : k < 1024 := by omega
    rw [List.getD_eq_getElem?_getD, List.getElem?_take_of_lt hk1024,
      List.getElem?_drop, ← List.getD_eq_getElem?_getD]
  by_cases h1 : (P.drop (1024 * i)).take 1024 = []
  · have hz : ((P.drop (1024 * i)).take 1024).length = 0 := by simp [h1]
    have hout : ¬ (1024 * i + j < P.length) := by omega
    rw [if_pos h1, if_neg hout]
    rw [List.getD_eq_getElem?_getD, List.getElem?_replicate]
    simp [hj]
  · have hpos : 0 < ((P.drop (1024 * i)).take 1024).length :=
      List.length_pos.mpr h1
    rw [if_neg h1]
    by_cases h2 : ((P.drop (1024 * i)).take 1024).length ≠ 1024
    · rw [if_pos h2]
      by_cases hjin : j < ((P.drop (1024 * i)).take 1024).length
      · rw [getD_append_left hjin, hget j hjin]
        have hin : 1024 * i + j < P.length := by omega
        rw [if_pos hin]
      · rw [getD_append_right (by omega)]
        have hout : ¬ (1024 * i + j < P.length) := by omega
        rw [if_neg hout]
        rw [List.getD_eq_getElem?_getD, List.getElem?_replicate]
        have hrep : j - ((P.drop (1024 * i)).take 1024).length <
            1024 - ((P.drop (1024 * i)).take 1024).length := by omega
        rw [if_pos hrep]
        rfl
    · rw [if_neg h2]
      have hjin : j < ((P.drop (1024 * i)).take 1024).length := by omega
      rw [hget j hjin]
      have hin : 1024 * i + j < P.length := by omega
      rw [if_pos hin]

/-- The stamped flash head in explicit form: the block index overwrites the
third byte of the [2,2,0] constant, i.e. packet offset 38 = body offset 32. -/
theorem flash_head_stamped (hw fw : List Nat) (i : Nat)
    (hhw : hw.length = 30) (hi : i < 256) :
    (flash_block_headder ++ hw ++ [2, 2, 0] ++ fw).set 38 (i &&& 0xFF) =
      flash_block_headder ++ hw ++ [2, 2, i] ++ fw := by
  have hmask : i &&& 0xFF = i := by
    rw [land255]
    omega
  rw [List.set_append_left _ _ (by simp [flash_block_headder, hhw])]
  rw [List.set_append_right _ _ (by simp [flash_block_headder, hhw])]
  simp [flash_block_headder, hhw, hmask, List.set_cons_succ, List.set_cons_zero]

/-- The flash-block packet reassociated into head-and-rest form. -/
theorem flash_block_packet_eq (hw fw P : List Nat) (i : Nat) :
    flash_block_packet hw fw P i =
      ((flash_block_headder ++ hw ++ [2, 2, 0] ++ fw).set 38 (i &&& 0xFF)) ++
        (flash_body P i ++
          ([get_crc16 (flash_body P i) &&& 0xFF,
            (get_crc16 (flash_body P i) >>> 8) &&& 0xFF] ++ tail)) := by
  unfold flash_block_packet
  simp [List.append_assoc]

/-- C2 (amended): in every flash-block frame, the block index i (0..=255) is
stamped at offset 38 of the whole packet including the 6-byte header — that
is offset 32 of the body, overwriting the third byte of the [2,2,0]
constant — not at body offset 38; the head is
header ++ hw_id[30] ++ [2,2] ++ [i] ++ fw_version[3]. -/
theorem C2_block_index_placement (hw fw P : List Nat) (i : Nat)
    (hhw : hw.length = 30) (hfw : fw.length = 3) (hi : i < 256) :
    (flash_block_packet hw fw P i).take 42 =
      flash_block_headder ++ hw ++ [2, 2, i] ++ fw ∧
    (flash_block_packet hw fw P i).getD 38 0 = i := by
  have hstamp := flash_head_stamped hw fw i hhw hi
  have hlen : ((flash_block_headder ++ hw ++ [2, 2, 0] ++ fw).set 38
      (i &&& 0xFF)).length = 42 := by
    rw [hstamp]
    simp [flash_block_headder, hhw, hfw]
  constructor
  · rw [flash_block_packet_eq, List.take_left' hlen, hstamp]
  · rw [flash_block_packet_eq, getD_append_left (by omega), hstamp]
    rw [getD_append_left (by simp [flash_block_headder, hhw, hfw])]
    rw [getD_append_right (by simp [flash_block_headder, hhw])]
    simp [flash_block_headder, hhw]

/-- C8 (confirmed): the flash-block packet is exactly 1070 bytes, and its
payload bytes (packet offsets 42..1065) are exactly
P[1024*i .. 1024*(i+1)], padded with 0xFF wherever past the end of P; a
block entirely past the end is all 0xFF. -/
theorem C8_block_payload (hw fw P : List Nat) (i : Nat)
    (hhw : hw.length = 30) (hfw : fw.length = 3)
    (hL : P.length ≤ 256 * 1024) (hi : i < 256) :
    (flash_block_packet hw fw P i).length = 1070 ∧
    ∀ j, j < 1024 →
      (flash_block_packet hw fw P i).getD (42 + j) 0 =
        if 1024 * i + j < P.length then P.getD (1024 * i + j) 0 else 0xFF := by
  have hlen : ((flash_block_headder ++ hw ++ [2, 2, 0] ++ fw).set 38
      (i &&& 0xFF)).length = 42 := by
    simp [flash_block_headder, hhw, hfw]
  have hblen := flash_body_length P i
  constructor
  · rw [flash_block_packet_eq]
    simp only [List.length_append, hlen, hblen]
    rfl
  · intro j hj
    rw [flash_block_packet_eq]
    rw [getD_append_right (by omega)]
    have e : 42 + j - ((flash_block_headder ++ hw ++ [2, 2, 0] ++ fw).set 38
        (i &&& 0xFF)).length = j := by
      rw [hlen]
      omega
    rw [e]
    rw [getD_append_left (by omega)]
    exact flash_body_getD P i j hj

/-- Concrete inputs for the C2 flash-block counterexample and witnesses. -/
def c2_hw_id : List Nat := List.replicate 30 17

/-- Concrete firmware version [patch, minor, major] for the C2 theorems. -/
def c2_fw_version : List Nat := [5, 0, 1]

/-- Concrete 64-byte firmware payload for the C2 theorems. -/
def c2_payload : List Nat := List.replicate 64 3

/-- C2 (counterexample): the claim places block index i at body offset 38
(= packet offset 44), but for block 1 of a concrete frame the byte at packet
offset 44 is a body byte (here the 0xFF pad), not the index 1; the index
actually sits at packet offset 38 (= body offset 32), where the claim expects
the constant 0 of [2,2,0]. -/
theorem C2_block_offset_counterexample :
    (flash_block_packet c2_hw_id c2_fw_version c2_payload 1).getD 44 0 ≠ 1 ∧
    (flash_block_packet c2_hw_id c2_fw_version c2_payload 1).getD 38 0 = 1 := by
  constructor
  · decide
  · decide

/-- C2 (witness): the amended placement theorem applied at concrete inputs. -/
theorem C2_block_index_placement_witness :
    (flash_block_packet c2_hw_id c2_fw_version c2_payload 1).take 42 =
      flash_block_headder ++ c2_hw_id ++ [2, 2, 1] ++ c2_fw_version ∧
    (flash_block_packet c2_hw_id c2_fw_version c2_payload 1).getD 38 0 = 1 :=
  C2_block_index_placement c2_hw_id c2_fw_version c2_payload 1
    (by decide) (by decide) (by decide)

/-- C8 (witness): the payload theorem applied at concrete inputs, then
evaluated at one in-range and one padded byte position. -/
theorem C8_block_payload_witness :
    (flash_block_packet c2_hw_id c2_fw_version c2_payload 0).length = 1070 ∧
    (flash_block_packet c2_hw_id c2_fw_version c2_payload 0).getD (42 + 7) 0 =
      (if 1024 * 0 + 7 < c2_payload.length then c2_payload.getD (1024 * 0 + 7) 0
       else 0xFF) :=
  And.intro
    (C8_block_payload c2_hw_id c2_fw_version c2_payload 0
      (by decide) (by decide) (by decide) (by decide)).1
    ((C8_block_payload c2_hw_id c2_fw_version c2_payload 0
      (by decide) (by decide) (by decide) (by decide)).2 7 (by decide))


/-! ### Simple send-only dispatch (C4)

cmd_sendonly (ilidar-tool.py lines 1239-1331) handles pause, measure,
reboot and redirect when no serial-number target is present.  IP addresses
are modelled as 32-bit Nat values.
-/

/-- One transmit action: packet bytes, destination IP and destination port. -/
structure Send where
  packet : List Nat
  dest : Nat
  port : Nat
  deriving Repr, DecidableEq

/-- One host endpoint as built by cmd_sendonly (lines 1279-1303): bind ip,
subnet mask and broadcast address. -/
structure SockEntry where
  ip : Nat
  subnet : Nat
  broadcast : Nat
  deriving Repr, DecidableEq

/-- Shallow embedding of is_in_subnet (ilidar-tool.py lines 402-404): the
target belongs to the network of subnet_ip/subnet_mask exactly when the
masked addresses agree. -/
def is_in_subnet (target_ip subnet_ip subnet_mask : Nat) : Bool :=
  (target_ip &&& subnet_mask) == (subnet_ip &&& subnet_mask)

/-- Fixed measure command frame (ilidar-tool.py line 1249). -/
def cmd_measure : List Nat :=
  [0xA5, 0x5A, 0x30, 0x00, 0x04, 0x00, 0x00, 0x01, 0x00, 0x00, 0xA5, 0x5A]

/-- Fixed pause command frame (ilidar-tool.py line 1250). -/
def cmd_pause : List Nat :=
  [0xA5, 0x5A, 0x30, 0x00, 0x04, 0x00, 0x01, 0x01, 0x00, 0x00, 0xA5, 0x5A]

/-- Fixed reboot command frame (ilidar-tool.py line 1251). -/
def cmd_reboot : List Nat :=
  [0xA5, 0x5A, 0x30, 0x00, 0x04, 0x00, 0x02, 0x01, 0x00, 0x00, 0xA5, 0x5A]

/-- Fixed redirect command frame (ilidar-tool.py line 1252). -/
def cmd_redirect : List Nat :=
  [0xA5, 0x5A, 0x30, 0x00, 0x04, 0x00, 0x00, 0x04, 0x00, 0x00, 0xA5, 0x5A]

/-- The send loop of cmd_sendonly (ilidar-tool.py lines 1308-1322).  For an
AllSensors target the frame goes once to every endpoint's broadcast; for IP
targets, for each target and each endpoint whose subnet contains it the
source calls sendto(cmd_packet, (sock[broadcast-key], 4906)) — the
destination is the endpoint's broadcast address, not the target. -/
def cmd_sendonly_sends (cmd_packet : List Nat) (target_type_all : Bool)
    (target_list : List Nat) (sockets : List SockEntry) : List Send :=
  if target_type_all then
    sockets.map (fun sock => ⟨cmd_packet, sock.broadcast, 4906⟩)
  else
    target_list.flatMap (fun target =>
      (sockets.filter (fun sock => is_in_subnet target sock.ip sock.subnet)).map
        (fun sock => ⟨cmd_packet, sock.broadcast, 4906⟩))

/-- C4 (counterexample): cmd=pause with the single IP target 192.168.5.200
(= 3232237000) on a host endpoint 192.168.5.2/24 with broadcast
192.168.5.255 (= 3232237055): the source emits exactly one frame, addressed
to the broadcast 192.168.5.255:4906 — no frame is sent unicast to the
target 192.168.5.200 as the claim states. -/
theorem C4_sendonly_counterexample :
    cmd_sendonly_sends cmd_pause false [3232237000]
        [⟨3232236802, 4294967040, 3232237055⟩] =
      [⟨cmd_pause, 3232237055, 4906⟩] ∧
    ∀ s ∈ cmd_sendonly_sends cmd_pause false [3232237000]
        [⟨3232236802, 4294967040, 3232237055⟩], s.dest ≠ 3232237000 := by
  constructor
  · decide
  · decide

/-- C4 (amended): for commands in {pause, measure, reboot, redirect} with
IP-typed targets, cmd_sendonly sends the fixed 12-byte frame with sn = 0
(bytes 8 and 9 stay zero) on port 4906, routed through the endpoints whose
subnet contains each target — but every emitted frame is addressed to the
matching endpoint's broadcast address (for AllSensors, to every endpoint's
broadcast), never unicast to the target IP itself. -/
theorem C4_sendonly_broadcast (p : List Nat) (all : Bool)
    (targets : List Nat) (sockets : List SockEntry) :
    (cmd_pause =
      [0xA5, 0x5A, 0x30, 0x00, 0x04, 0x00, 0x01, 0x01, 0x00, 0x00, 0xA5, 0x5A] ∧
     cmd_pause.getD 8 0 = 0 ∧ cmd_pause.getD 9 0 = 0) ∧
    (∀ s ∈ cmd_sendonly_sends p all targets sockets,
      s.packet = p ∧ s.port = 4906 ∧
      ∃ sock ∈ sockets, s.dest = sock.broadcast ∧
        (all = true ∨ ∃ t ∈ targets, is_in_subnet t sock.ip sock.subnet = true)) := by
  constructor
  · exact ⟨rfl, rfl, rfl⟩
  · intro s hs
    unfold cmd_sendonly_sends at hs
    by_cases hall : all
    · rw [if_pos hall] at hs
      rw [List.mem_map] at hs
      obtain ⟨sock, hsock, rfl⟩ := hs
      exact ⟨rfl, rfl, sock, hsock, rfl, Or.inl hall⟩
    · rw [if_neg hall] at hs
      rw [List.mem_flatMap] at hs
      obtain ⟨t, ht, hs⟩ := hs
      rw [List.mem_map] at hs
      obtain ⟨sock, hsock, rfl⟩ := hs
      rw [List.mem_filter] at hsock
      exact ⟨rfl, rfl, sock, hsock.1, rfl, Or.inr ⟨t, ht, hsock.2⟩⟩

/-- C4 (witness): the amended theorem applied to the concrete pause example,
then evaluated on its single emitted send. -/
theorem C4_sendonly_broadcast_witness :
    (⟨cmd_pause, 3232237055, 4906⟩ : Send).packet = cmd_pause ∧
    (⟨cmd_pause, 3232237055, 4906⟩ : Send).port = 4906 ∧
    ∃ sock ∈ [(⟨3232236802, 4294967040, 3232237055⟩ : SockEntry)],
      (⟨cmd_pause, 3232237055, 4906⟩ : Send).dest = sock.broadcast ∧
      (false = true ∨ ∃ t ∈ [3232237000],
        is_in_subnet t sock.ip sock.subnet = true) :=
  (C4_sendonly_broadcast cmd_pause false [3232237000]
      [⟨3232236802, 4294967040, 3232237055⟩]).2
    ⟨cmd_pause, 3232237055, 4906⟩ (by decide)

/-! ### Process exit codes (C5)

The main entry (ilidar-tool.py lines 2134-2338) terminates its early error
paths with sys.exit() taking no argument.  In Python, sys.exit() raises
SystemExit(None) and the interpreter exits with status 0; normal fall-off
of the script also exits with status 0.
-/

/-- Exit status produced by Python's sys.exit() with no argument. -/
def sys_exit_code : Nat := 0

/-- Exit code of the main entry as a function of which branch terminates the
run: empty host IP list (line 2143), check_command failure (line 2148),
undefined command (line 2183), invalid command arguments (lines 2195, 2205,
2215), empty interface list after option parsing (line 2321), or normal
completion of a cmd_* function. -/
def main_exit_code (host_ip_count : Nat) (command_ok : Bool)
    (command_defined : Bool) (args_ok : Bool) (iface_count : Nat) : Nat :=
  if host_ip_count = 0 then sys_exit_code
  else if command_ok = false then sys_exit_code
  else if command_defined = false then sys_exit_code
  else if args_ok = false then sys_exit_code
  else if iface_count = 0 then sys_exit_code
  else 0

/-- C5 (counterexample): the claim requires a non-zero exit code when the
host interface list is empty or on an argument error, but the tool calls
sys.exit() with no argument, which exits with status 0 in both cases. -/
theorem C5_exit_code_counterexample :
    main_exit_code 0 true true true 1 = 0 ∧
    main_exit_code 5 false true true 1 = 0 ∧
    main_exit_code 5 true true false 1 = 0 := by
  refine ⟨rfl, rfl, rfl⟩

/-- C5 (amended): the process exit code is 0 on every path — on completion
(including runs where individual sensors are skipped), and also on argument
errors and on an empty host interface list, because every early exit is
sys.exit() with no argument. -/
theorem C5_exit_code_always_zero (host_ip_count : Nat) (command_ok : Bool)
    (command_defined : Bool) (args_ok : Bool) (iface_count : Nat) :
    main_exit_code host_ip_count command_ok command_defined args_ok
      iface_count = 0 := by
  unfold main_exit_code sys_exit_code
  repeat' split
  all_goals rfl


/-! ### Discovery slot filling (C10)

The discovery loops of cmd_run (lines 1014-1137), cmd_config_run
(lines 1410-1457) and cmd_update_run (lines 1741-1793) keep two parallel
lists: target_list (serial numbers that get overwritten with sender IPs)
and recv_sn_list (initialized to 0; a slot is treated as unfilled exactly
when its entry is 0).  We model a slot as a pair of the current target and
the recv_sn_list entry.
-/

/-- A discovery target entry: a serial number, or an IP address once the
source has overwritten the entry with the sender's address. -/
inductive DiscTarget where
  | sn (v : Nat) : DiscTarget
  | ip (addr : Nat) : DiscTarget
  deriving Repr, DecidableEq

/-- An incoming info_v2 reply reduced to the fields the matching logic
uses: the datagram's sender address and the decoded sensor_sn. -/
structure InfoEvent where
  sender : Nat
  sensor_sn : Nat
  deriving Repr, DecidableEq

/-- One info_v2 reply processed by the discovery loop of cmd_run
(lines 1104-1121, non-ALL path; cmd_config_run lines 1436-1444 and
cmd_update_run lines 1767-1775 are the serial branch alone).  If the
decoded serial occurs among the targets, every unfilled slot holding that
serial records it and the entry becomes the sender's IP; otherwise, if the
sender's IP occurs among the targets, every unfilled slot holding that IP
records the serial. -/
def discovery_step (slots : List (DiscTarget × Nat)) (ev : InfoEvent) :
    List (DiscTarget × Nat) :=
  if (slots.map Prod.fst).contains (DiscTarget.sn ev.sensor_sn) then
    slots.map (fun p =>
      if p.1 = DiscTarget.sn ev.sensor_sn ∧ p.2 = 0 then
        (DiscTarget.ip ev.sender, ev.sensor_sn)
      else p)
  else if (slots.map Prod.fst).contains (DiscTarget.ip ev.sender) then
    slots.map (fun p =>
      if p.1 = DiscTarget.ip ev.sender ∧ p.2 = 0 then (p.1, ev.sensor_sn)
      else p)
  else slots

/-- Termination test of the discovery loop (line 1127 and analogues):
success exactly when 0 no longer occurs in recv_sn_list. -/
def discovery_complete (recv : List Nat) : Bool := !(recv.contains 0)

/-- Command dispatch of cmd_run (lines 1214-1227): a command frame is sent
only for the slots whose recv_sn_list entry is non-zero; the others print
(skipped). -/
def cmd_run_dispatch_indices (recv : List Nat) : List Nat :=
  (List.range recv.length).filter (fun idx => recv.getD idx 0 != 0)

/-- Serial-number acceptance of parse_arg_list (lines 514-519): a decimal
target is accepted exactly when it lies in 0..=65535 (the negative case of
the source cannot occur for a Nat). -/
def parse_sn_accepted (n : Nat) : Bool :=
  if n > 65535 then false else true

/-- Auxiliary: a rewriting map that never changes the second component
leaves the recv_sn_list projection unchanged. -/
theorem map_snd_unchanged {f : DiscTarget × Nat → DiscTarget × Nat}
    (hf : ∀ p, (f p).2 = p.2) :
    ∀ slots : List (DiscTarget × Nat),
      (slots.map f).map Prod.snd = slots.map Prod.snd := by
  intro slots
  induction slots with
  | nil => rfl
  | cons p t ih => simp [hf p, ih]

/-- Auxiliary: if a rewriting map changes the second component of an entry
only when it was 0, then any index where the recv projection changed held 0
before. -/
theorem map_snd_changed_was_zero {f : DiscTarget × Nat → DiscTarget × Nat}
    (hf : ∀ p, (f p).2 ≠ p.2 → p.2 = 0) :
    ∀ (slots : List (DiscTarget × Nat)) (idx : Nat),
      ((slots.map f).map Prod.snd).getD idx 0 ≠
        (slots.map Prod.snd).getD idx 0 →
      (slots.map Prod.snd).getD idx 0 = 0 := by
  intro slots
  induction slots with
  | nil => intro idx h; simp at h
  | cons p t ih =>
    intro idx h
    cases idx with
    | zero =>
      simp only [List.map_cons, List.getD_cons_zero] at h ⊢
      exact hf p h
    | succ k =>
      simp only [List.map_cons, List.getD_cons_succ] at h ⊢
      exact ih k h

/-- A reply whose decoded serial is 0 leaves every recv_sn_list entry
unchanged: the matching branches write back the serial 0 itself. -/
theorem discovery_step_sn_zero (slots : List (DiscTarget × Nat))
    (ev : InfoEvent) (h : ev.sensor_sn = 0) :
    (discovery_step slots ev).map Prod.snd = slots.map Prod.snd := by
  unfold discovery_step
  rw [h]
  split
  · apply map_snd_unchanged
    intro p
    split
    · next hc => exact hc.2.symm
    · rfl
  · split
    · apply map_snd_unchanged
      intro p
      split
      · next hc => exact hc.2.symm
      · rfl
    · rfl

/-- Processing any sequence of serial-0 replies leaves recv_sn_list
unchanged. -/
theorem discovery_fold_sn_zero (evs : List InfoEvent) :
    ∀ slots : List (DiscTarget × Nat), (∀ e ∈ evs, e.sensor_sn = 0) →
      (evs.foldl discovery_step slots).map Prod.snd = slots.map Prod.snd := by
  induction evs with
  | nil => intro slots _; rfl
  | cons e t ih =>
    intro slots h
    rw [List.foldl_cons]
    rw [ih (discovery_step slots e) (fun x hx => h x (List.mem_cons_of_mem e hx))]
    exact discovery_step_sn_zero slots e (h e (List.mem_cons_self e t))

/-- C10 (confirmed): in the discovery loops a slot counts as unfilled
exactly when its recv_sn_list entry is 0.  Consequently: (i) any entry that
changes in a step held 0 before (filling only touches unfilled slots);
(ii) an info reply whose decoded sensor_sn is 0 never changes recv_sn_list,
so it never marks a slot as filled; (iii) a target list that only ever
receives serial-0 replies never satisfies the all-targets-found termination
test (0 not in recv_sn_list); (iv) commands are dispatched only to indices
with a non-zero entry; and (v) parse_arg_list nonetheless accepts the
serial 0 as a target. -/
theorem C10_serial_zero_never_fills :
    (∀ (slots : List (DiscTarget × Nat)) (ev : InfoEvent) (idx : Nat),
      ((discovery_step slots ev).map Prod.snd).getD idx 0 ≠
        (slots.map Prod.snd).getD idx 0 →
      (slots.map Prod.snd).getD idx 0 = 0) ∧
    (∀ (slots : List (DiscTarget × Nat)) (ev : InfoEvent), ev.sensor_sn = 0 →
      (discovery_step slots ev).map Prod.snd = slots.map Prod.snd) ∧
    (∀ (tl : List DiscTarget) (evs : List InfoEvent), 0 < tl.length →
      (∀ e ∈ evs, e.sensor_sn = 0) →
      discovery_complete
        ((evs.foldl discovery_step (tl.map (fun t => (t, 0)))).map Prod.snd) =
        false) ∧
    (∀ (recv : List Nat) (idx : Nat),
      idx ∈ cmd_run_dispatch_indices recv → recv.getD idx 0 ≠ 0) ∧
    parse_sn_accepted 0 = true := by
  refine ⟨?_, ?_, ?_, ?_, rfl⟩
  · intro slots ev idx
    unfold discovery_step
    split
    · apply map_snd_changed_was_zero
      intro p hp
      by_cases hc : p.1 = DiscTarget.sn ev.sensor_sn ∧ p.2 = 0
      · exact hc.2
      · rw [if_neg hc] at hp
        exact absurd rfl hp
    · split
      · apply map_snd_changed_was_zero
        intro p hp
        by_cases hc : p.1 = DiscTarget.ip ev.sender ∧ p.2 = 0
        · exact hc.2
        · rw [if_neg hc] at hp
          exact absurd rfl hp
      · intro h
        exact absurd rfl h
  · exact discovery_step_sn_zero
  · intro tl evs hlen hzero
    rw [discovery_fold_sn_zero evs _ hzero]
    cases tl with
    | nil => simp at hlen
    | cons a t => simp [discovery_complete]
  · intro recv idx hidx
    unfold cmd_run_dispatch_indices at hidx
    rw [List.mem_filter] at hidx
    simpa using hidx.2

/-- C10 (witness): the theorem's conjuncts applied at concrete inputs — a
single slot targeting serial 0 and one serial-0 reply from 192.168.5.200. -/
theorem C10_serial_zero_never_fills_witness :
    (discovery_step [(DiscTarget.sn 0, 0)] ⟨3232237000, 0⟩).map Prod.snd =
      [(DiscTarget.sn 0, 0)].map Prod.snd ∧
    discovery_complete
      (([(⟨3232237000, 0⟩ : InfoEvent)].foldl discovery_step
        ([DiscTarget.sn 0].map (fun t => (t, 0)))).map Prod.snd) = false :=
  And.intro
    (C10_serial_zero_never_fills.2.1 [(DiscTarget.sn 0, 0)] ⟨3232237000, 0⟩ rfl)
    (C10_serial_zero_never_fills.2.2.1 [DiscTarget.sn 0]
      [⟨3232237000, 0⟩] (by decide) (by decide))

/-! ### Update eligibility and the version skip (C9)

Per-sensor eligibility checks of cmd_update_run (lines 1820-1931), in
source order: argument-list membership, firmware-version comparison
(forced overwrite continues), hw_id prefix, bootloader version, safe-boot
state (with the recovery sub-state outcome abstracted as a flag), and the
configuration lock.  The flash_start handshake (line 1924 onward) is
reached exactly when no check breaks out.
-/

/-- Firmware file metadata parsed by read_bin_files (lines 277-297). -/
structure BinFile where
  fw_version : List Nat
  sensor_id_arr : List Nat
  sensor_sn : Nat
  deriving Repr, DecidableEq

/-- Fixed flash-start command frame (ilidar-tool.py line 1650), before the
serial number is patched in. -/
def cmd_flash_start : List Nat :=
  [0xA5, 0x5A, 0x30, 0x00, 0x04, 0x00, 0x00, 0x06, 0x00, 0x00, 0xA5, 0x5A]

/-- Numeric firmware version as computed on line 1856:
major * 10000 + minor * 100 + patch. -/
def fw_ver_numeric (v : List Nat) : Nat :=
  v.getD 2 0 * 10000 + v.getD 1 0 * 100 + v.getD 0 0

/-- Outcome of the per-sensor eligibility phase of cmd_update_run. -/
inductive UpdateDecision where
  | skippedNotInArgs
  | skippedSameVersion
  | skippedHwMismatch
  | skippedOldBootloader
  | skippedSafeBootFailed
  | skippedLocked
  | proceed
  deriving Repr, DecidableEq

/-- Eligibility pipeline of cmd_update_run (lines 1829-1915) in source
order; in_args models the argument-list membership test of lines 1829-1832,
and boot_recovered the outcome of the safe-boot recovery sub-state for a
sensor whose live sensor_boot_ctrl is non-zero. -/
def update_eligibility (forced in_args boot_recovered : Bool)
    (live : InfoRecord) (bin : BinFile) : UpdateDecision :=
  if in_args = false then UpdateDecision.skippedNotInArgs
  else if live.sensor_fw1_ver = bin.fw_version ∧ forced = false then
    UpdateDecision.skippedSameVersion
  else if live.sensor_hw_id.take 12 ≠ bin.sensor_id_arr then
    UpdateDecision.skippedHwMismatch
  else if fw_ver_numeric live.sensor_fw_ver < 10504 then
    UpdateDecision.skippedOldBootloader
  else if live.sensor_boot_ctrl ≠ 0 ∧ boot_recovered = false then
    UpdateDecision.skippedSafeBootFailed
  else if live.lock ≠ 0 then UpdateDecision.skippedLocked
  else UpdateDecision.proceed

/-- The flash_start handshake is entered (and its frame sent) exactly when
the eligibility pipeline reaches proceed. -/
def update_flash_start_sent (forced in_args boot_recovered : Bool)
    (live : InfoRecord) (bin : BinFile) : Bool :=
  update_eligibility forced in_args boot_recovered live bin ==
    UpdateDecision.proceed

/-- C9 (confirmed): a discovered, argument-listed sensor whose live
sensor_fw1_ver equals the file's fw_version is skipped before any
flash_start frame is sent when the command is update (not forced); under
overwrite (forced) the same sensor passes the version check and, when the
remaining checks pass, proceeds to the full transfer with flash_start
sent. -/
theorem C9_update_version_skip (forced boot_recovered : Bool)
    (live : InfoRecord) (bin : BinFile)
    (hver : live.sensor_fw1_ver = bin.fw_version) :
    (forced = false →
      update_eligibility forced true boot_recovered live bin =
        UpdateDecision.skippedSameVersion ∧
      update_flash_start_sent forced true boot_recovered live bin = false) ∧
    (forced = true →
      live.sensor_hw_id.take 12 = bin.sensor_id_arr →
      10504 ≤ fw_ver_numeric live.sensor_fw_ver →
      (live.sensor_boot_ctrl = 0 ∨ boot_recovered = true) →
      live.lock = 0 →
      update_eligibility forced true boot_recovered live bin =
        UpdateDecision.proceed ∧
      update_flash_start_sent forced true boot_recovered live bin = true) := by
  constructor
  · intro hf
    subst hf
    have hdec : update_eligibility false true boot_recovered live bin =
        UpdateDecision.skippedSameVersion := by
      unfold update_eligibility
      rw [if_neg (by simp)]
      rw [if_pos ⟨hver, rfl⟩]
    refine ⟨hdec, ?_⟩
    unfold update_flash_start_sent
    rw [hdec]
    rfl
  · intro hf hhw hfw hboot hlock
    subst hf
    have hdec : update_eligibility true true boot_recovered live bin =
        UpdateDecision.proceed := by
      unfold update_eligibility
      rw [if_neg (by simp)]
      rw [if_neg (by simp)]
      rw [if_neg (by simp [hhw])]
      rw [if_neg (by omega)]
      rw [if_neg (by rcases hboot with h | h <;> simp [h])]
      rw [if_neg (by simp [hlock])]
    refine ⟨hdec, ?_⟩
    unfold update_flash_start_sent
    rw [hdec]
    rfl

/-- Concrete firmware file matching c1_record: same fw1 version [0,0,1] and
the hw_id prefix of c1_record. -/
def c9_bin : BinFile :=
  { fw_version := [0, 0, 1]
    sensor_id_arr := List.replicate 12 17
    sensor_sn := 456 }

/-- C9 (witness): the version-skip theorem applied to c1_record and c9_bin,
in both the plain-update and the forced-overwrite direction. -/
theorem C9_update_version_skip_witness :
    (update_eligibility false true true c1_record c9_bin =
        UpdateDecision.skippedSameVersion ∧
      update_flash_start_sent false true true c1_record c9_bin = false) ∧
    (update_eligibility true true true c1_record c9_bin =
        UpdateDecision.proceed ∧
      update_flash_start_sent true true true c1_record c9_bin = true) :=
  And.intro
    ((C9_update_version_skip false true c1_record c9_bin (by decide)).1 rfl)
    ((C9_update_version_skip true true c1_record c9_bin (by decide)).2 rfl
      (by decide) (by decide) (Or.inr rfl) (by decide))


/-! ### Safe-boot recovery await loop (C6)

The recovery sub-state of cmd_update_run (lines 1863-1909) bounds only its
outer loop (tries = 3 rounds of measure + safe_boot sends); the inner
while error == True await loop re-broadcasts read_info and polls the data
sockets with no bound at all.  A socket's pending datagrams are modelled as
a queue of payloads; an exhausted queue is the OSError (empty buffer) case.
-/

/-- Info_v2 packet header (ilidar-tool.py line 1656). -/
def info_v2_header : List Nat := [0xA5, 0x5A, 0x21, 0x00, 0xA6, 0x00]

/-- Packet filter of the await loop (line 1894): exactly 166+8 bytes and
the info_v2 header in front. -/
def is_info_packet (d : List Nat) : Bool :=
  (d.length == 166 + 8) && (d.take 6 == info_v2_header)

/-- Serial decoded from an info packet: decode_info_v2(data[6:172]).sensor_sn. -/
def info_packet_sn (d : List Nat) : Nat :=
  (decode_info_v2 ((d.drop 6).take 166)).sensor_sn

/-- Boot control decoded from an info packet. -/
def info_packet_boot_ctrl (d : List Nat) : Nat :=
  (decode_info_v2 ((d.drop 6).take 166)).sensor_boot_ctrl

/-- A datagram that ends the recovery wait: an info packet of the target
serial reporting sensor_boot_ctrl == 0 (lines 1894-1899). -/
def is_qualifying (target_sn : Nat) (d : List Nat) : Bool :=
  is_info_packet d && (info_packet_sn d == target_sn) &&
    (info_packet_boot_ctrl d == 0)

/-- The inner datagram loop of the await (lines 1887-1900): while error is
true, pop datagrams; an empty buffer stops the loop; an info packet of the
target serial stops it too, clearing error exactly when sensor_boot_ctrl is
0; every other datagram is consumed and skipped. -/
def recovery_read_loop (target_sn : Nat) :
    Bool → List (List Nat) → Bool × List (List Nat)
  | err, [] => (err, [])
  | err, d :: rest =>
    if err = false then (err, d :: rest)
    else if is_info_packet d then
      if info_packet_sn d = target_sn then
        (if info_packet_boot_ctrl d = 0 then false else true, rest)
      else recovery_read_loop target_sn err rest
    else recovery_read_loop target_sn err rest

/-- One body of the while error == True loop (lines 1882-1900): broadcast
read_info, then run the reading loop over each data socket in order,
threading the error flag. -/
def recovery_await_pass (target_sn : Nat) :
    Bool → List (List (List Nat)) → Bool × List (List (List Nat))
  | err, [] => (err, [])
  | err, q :: qs =>
    ((recovery_await_pass target_sn (recovery_read_loop target_sn err q).1 qs).1,
      (recovery_read_loop target_sn err q).2 ::
        (recovery_await_pass target_sn (recovery_read_loop target_sn err q).1 qs).2)

/-- One iteration of while error == True: the guard, then one pass. -/
def recovery_await_step (target_sn : Nat)
    (st : Bool × List (List (List Nat))) : Bool × List (List (List Nat)) :=
  if st.1 = false then st
  else recovery_await_pass target_sn st.1 st.2

/-- Reading a queue without a qualifying datagram keeps the error flag and
the no-qualifying property. -/
theorem recovery_read_loop_no_qual (sn : Nat) :
    ∀ q : List (List Nat), (∀ d ∈ q, is_qualifying sn d = false) →
      (recovery_read_loop sn true q).1 = true ∧
      (∀ d ∈ (recovery_read_loop sn true q).2, is_qualifying sn d = false) := by
  intro q
  induction q with
  | nil => intro _; exact ⟨rfl, by simp [recovery_read_loop]⟩
  | cons d rest ih =>
    intro h
    unfold recovery_read_loop
    rw [if_neg (by simp)]
    by_cases hinfo : is_info_packet d
    · rw [if_pos hinfo]
      by_cases hsn : info_packet_sn d = sn
      · rw [if_pos hsn]
        have hq := h d (by simp)
        have hboot : ¬ info_packet_boot_ctrl d = 0 := by
          intro hb
          simp [is_qualifying, hinfo, hsn, hb] at hq
        rw [if_neg hboot]
        exact ⟨rfl, fun d2 hd2 => h d2 (List.mem_cons_of_mem d hd2)⟩
      · rw [if_neg hsn]
        exact ih (fun d2 hd2 => h d2 (List.mem_cons_of_mem d hd2))
    · rw [if_neg hinfo]
      exact ih (fun d2 hd2 => h d2 (List.mem_cons_of_mem d hd2))

/-- A pass over sockets without any qualifying datagram keeps the error
flag and the no-qualifying property. -/
theorem recovery_await_pass_no_qual (sn : Nat) :
    ∀ qs : List (List (List Nat)),
      (∀ q ∈ qs, ∀ d ∈ q, is_qualifying sn d = false) →
      (recovery_await_pass sn true qs).1 = true ∧
      (∀ q ∈ (recovery_await_pass sn true qs).2, ∀ d ∈ q,
        is_qualifying sn d = false) := by
  intro qs
  induction qs with
  | nil => intro _; exact ⟨rfl, by simp [recovery_await_pass]⟩
  | cons q rest ih =>
    intro h
    have hq := recovery_read_loop_no_qual sn q (h q (by simp))
    unfold recovery_await_pass
    rw [hq.1]
    have hrest := ih (fun q2 hq2 => h q2 (List.mem_cons_of_mem q hq2))
    refine ⟨hrest.1, ?_⟩
    intro q2 hq2 d hd
    rcases List.mem_cons.mp hq2 with rfl | hmem
    · exact hq.2 d hd
    · exact hrest.2 q2 hmem d hd

/-- Iterating the await step from an error state whose queues hold no
qualifying datagram leaves the error flag set forever. -/
theorem recovery_iterate_no_qual (sn : Nat) :
    ∀ (n : Nat) (st : Bool × List (List (List Nat))), st.1 = true →
      (∀ q ∈ st.2, ∀ d ∈ q, is_qualifying sn d = false) →
      ((recovery_await_step sn)^[n] st).1 = true ∧
      (∀ q ∈ ((recovery_await_step sn)^[n] st).2, ∀ d ∈ q,
        is_qualifying sn d = false) := by
  intro n
  induction n with
  | zero => intro st h1 h2; exact ⟨h1, h2⟩
  | succ m ih =>
    intro st h1 h2
    rw [Function.iterate_succ_apply]
    have hstep : recovery_await_step sn st = recovery_await_pass sn true st.2 := by
      unfold recovery_await_step
      rw [if_neg (by rw [h1]; simp), h1]
    rw [hstep]
    have hp := recovery_await_pass_no_qual sn st.2 h2
    exact ih _ hp.1 hp.2

/-- Reading a queue that does contain a qualifying datagram either clears
the error flag or strictly shortens the queue while keeping a qualifying
datagram in it. -/
theorem recovery_read_loop_progress (sn : Nat) :
    ∀ q : List (List Nat), (∃ d ∈ q, is_qualifying sn d = true) →
      (recovery_read_loop sn true q).1 = false ∨
      ((recovery_read_loop sn true q).1 = true ∧
       (recovery_read_loop sn true q).2.length < q.length ∧
       ∃ d ∈ (recovery_read_loop sn true q).2, is_qualifying sn d = true) := by
  intro q
  induction q with
  | nil =>
    intro hex
    obtain ⟨d, hd, _⟩ := hex
    simp at hd
  | cons d rest ih =>
    intro hex
    obtain ⟨d0, hd0, hq0⟩ := hex
    unfold recovery_read_loop
    rw [if_neg (by simp)]
    by_cases hinfo : is_info_packet d
    · rw [if_pos hinfo]
      by_cases hsn : info_packet_sn d = sn
      · rw [if_pos hsn]
        by_cases hboot : info_packet_boot_ctrl d = 0
        · rw [if_pos hboot]
          left
          rfl
        · rw [if_neg hboot]
          right
          refine ⟨rfl, by simp, ?_⟩
          rcases List.mem_cons.mp hd0 with rfl | hmem
          · exact absurd hq0 (by simp [is_qualifying, hinfo, hsn, hboot])
          · exact ⟨d0, hmem, hq0⟩
      · rw [if_neg hsn]
        have hex2 : ∃ d2 ∈ rest, is_qualifying sn d2 = true := by
          rcases List.mem_cons.mp hd0 with rfl | hmem
          · exact absurd hq0 (by simp [is_qualifying, hsn])
          · exact ⟨d0, hmem, hq0⟩
        rcases ih hex2 with h | ⟨h1, h2, h3⟩
        · left
          exact h
        · right
          refine ⟨h1, ?_, h3⟩
          simp only [List.length_cons]
          omega
    · rw [if_neg hinfo]
      have hex2 : ∃ d2 ∈ rest, is_qualifying sn d2 = true := by
        rcases List.mem_cons.mp hd0 with rfl | hmem
        · exact absurd hq0 (by simp [is_qualifying, hinfo])
        · exact ⟨d0, hmem, hq0⟩
      rcases ih hex2 with h | ⟨h1, h2, h3⟩
      · left
        exact h
      · right
        refine ⟨h1, ?_, h3⟩
        simp only [List.length_cons]
        omega

/-- One await step on a single-socket state in error. -/
theorem recovery_await_step_single (sn : Nat) (q : List (List Nat)) :
    recovery_await_step sn (true, [q]) =
      ((recovery_read_loop sn true q).1, [(recovery_read_loop sn true q).2]) := by
  have h0 : ∀ e : Bool, recovery_await_pass sn e [] = (e, []) := fun e => rfl
  unfold recovery_await_step recovery_await_pass
  simp [h0]

/-- With a qualifying reply pending, the await loop terminates. -/
theorem recovery_await_terminates (sn : Nat) :
    ∀ (k : Nat) (q : List (List Nat)), q.length ≤ k →
      (∃ d ∈ q, is_qualifying sn d = true) →
      ∃ n, ((recovery_await_step sn)^[n] (true, [q])).1 = false := by
  intro k
  induction k with
  | zero =>
    intro q hk hex
    obtain ⟨d, hd, _⟩ := hex
    cases q with
    | nil => simp at hd
    | cons a t => simp at hk
  | succ m ih =>
    intro q hk hex
    rcases recovery_read_loop_progress sn q hex with h | ⟨h1, h2, h3⟩
    · refine ⟨1, ?_⟩
      rw [Function.iterate_one, recovery_await_step_single]
      exact h
    · obtain ⟨n, hn⟩ := ih (recovery_read_loop sn true q).2 (by omega) h3
      refine ⟨n + 1, ?_⟩
      rw [Function.iterate_succ_apply, recovery_await_step_single, h1]
      exact hn

/-- C6 (counterexample): the claim says the recovery sub-state always
terminates within 3 attempts even when no qualifying info reply arrives,
but with one data socket and an empty receive buffer the while
error == True await loop never clears the flag: the loop condition holds
after every number of iterations, so the recovery hangs instead of
skipping the sensor. -/
theorem C6_recovery_nontermination_counterexample :
    ¬ ∃ n, ((recovery_await_step 456)^[n] (true, [[]])).1 = false := by
  intro hex
  obtain ⟨n, hn⟩ := hex
  have htrue := (recovery_iterate_no_qual 456 n (true, [[]]) rfl (by simp)).1
  rw [htrue] at hn
  simp at hn

/-- C6 (amended): the outer retry loop of the recovery sub-state is bounded
(tries = 3 rounds of measure and safe_boot sends), but the await-info loop
inside an attempt is unbounded: (i) as long as no info reply of the target
serial with sensor_boot_ctrl == 0 is received, the error flag stays set
after any number of iterations — the recovery never terminates and the
sensor is not skipped; (ii) when such a qualifying reply is pending, the
await loop terminates with the error flag cleared. -/
theorem C6_recovery_await_unbounded :
    (∀ (sn : Nat) (qs : List (List (List Nat))),
      (∀ q ∈ qs, ∀ d ∈ q, is_qualifying sn d = false) →
      ∀ n, ((recovery_await_step sn)^[n] (true, qs)).1 = true) ∧
    (∀ (sn : Nat) (q : List (List Nat)),
      (∃ d ∈ q, is_qualifying sn d = true) →
      ∃ n, ((recovery_await_step sn)^[n] (true, [q])).1 = false) := by
  constructor
  · intro sn qs h n
    exact (recovery_iterate_no_qual sn n (true, qs) rfl h).1
  · intro sn q hex
    exact recovery_await_terminates sn q.length q (Nat.le_refl _) hex

/-- A qualifying info reply for serial 456: the info_v2 frame around
encode_info_v2 c1_record (which encodes sensor_boot_ctrl as 0). -/
def c6_info_reply : List Nat := info_v2_header ++ encode_info_v2 c1_record ++ tail

/-- C6 (witness): the amended theorem applied at concrete states — an empty
buffer stays in error after 2 iterations, and a buffer holding the
qualifying reply reaches error = false. -/
theorem C6_recovery_await_unbounded_witness :
    ((recovery_await_step 456)^[2] (true, [[]])).1 = true ∧
    ∃ n, ((recovery_await_step 456)^[n] (true, [[c6_info_reply]])).1 = false :=
  And.intro
    (C6_recovery_await_unbounded.1 456 [[]] (by simp) 2)
    (C6_recovery_await_unbounded.2 456 [c6_info_reply]
      ⟨c6_info_reply, by simp, by decide⟩)


/-! ### Block-transfer ack semantics (C7)

The per-block send/ack loop of cmd_update_run (lines 1994-2028) assigns
flash_ack on every recvfrom, including datagrams from non-target senders,
and the post-loop check re-reads the last assigned flash_ack.  Receive
events of the single matching data socket are a list of Option Dgram:
some d delivers a datagram, none is the OSError empty-buffer break.
-/

/-- Ack frame header (ilidar-tool.py line 1668). -/
def ack_header : List Nat := [0xA5, 0x5A, 0x40, 0x00, 0x22, 0x00]

/-- Frame filter of the ack check (lines 2023-2024): 34+8 bytes with the
ack header in front. -/
def is_ack_frame (d : List Nat) : Bool :=
  (d.length == 34 + 8) && (d.take 6 == ack_header)

/-- Bitmap bit for block o (line 2026): (flash_ack[8 + o//8] >> (o%8)) & 1. -/
def ack_bit (d : List Nat) (o : Nat) : Nat :=
  (d.getD (8 + o / 8) 0 >>> (o % 8)) &&& 0x01

/-- A received datagram: sender address and payload bytes. -/
structure Dgram where
  sender : Nat
  payload : List Nat
  deriving Repr, DecidableEq

/-- The recv loop of one block iteration (lines 2005-2020): every received
datagram overwrites flash_ack; an empty buffer (none) breaks; a non-target
sender triggers a pause broadcast and continues; an ack-headed frame from
the target breaks; any other target frame continues. -/
def read_ack_loop (target_ip : Nat) :
    Dgram → List (Option Dgram) → Dgram × List (Option Dgram)
  | last, [] => (last, [])
  | last, none :: rest => (last, rest)
  | _, some d :: rest =>
    if d.sender = target_ip then
      (if is_ack_frame d.payload then (d, rest) else read_ack_loop target_ip d rest)
    else read_ack_loop target_ip d rest

/-- The advance test after the recv loop (lines 2023-2028) on whatever
datagram flash_ack last held, whoever sent it. -/
def block_ack_ok (d : Dgram) (o : Nat) : Bool :=
  is_ack_frame d.payload && (decide (o < 256)) && (ack_bit d.payload o == 1)

/-- The while True retry loop for block o (lines 1994-2028): each iteration
is one send of flash_block followed by the recv loop; the loop exits when
the advance test passes.  Fuel bounds the iterations examined (the source
loop is unbounded); the result counts the sends of this block and carries
the final flash_ack and the remaining events. -/
def block_retry_loop (target_ip : Nat) (o : Nat) :
    Nat → Dgram → List (Option Dgram) → Option (Nat × Dgram × List (Option Dgram))
  | 0, _, _ => none
  | fuel + 1, last, evs =>
    if block_ack_ok (read_ack_loop target_ip last evs).1 o then
      some (1, (read_ack_loop target_ip last evs).1, (read_ack_loop target_ip last evs).2)
    else
      match block_retry_loop target_ip o fuel (read_ack_loop target_ip last evs).1
          (read_ack_loop target_ip last evs).2 with
      | none => none
      | some (k, a, rest) => some (k + 1, a, rest)

/-- The for _o in range(256) transfer (lines 1973-2028) over a list of
block indices, threading flash_ack and the events; the trace lists the
block index of every send in order. -/
def block_transfer (target_ip : Nat) :
    List Nat → Nat → Dgram → List (Option Dgram) →
      Option (List Nat × Dgram × List (Option Dgram))
  | [], _, last, evs => some ([], last, evs)
  | o :: os, fuel, last, evs =>
    match block_retry_loop target_ip o fuel last evs with
    | none => none
    | some (k, a, rest) =>
      match block_transfer target_ip os fuel a rest with
      | none => none
      | some (tr, a2, rest2) => some (List.replicate k o ++ tr, a2, rest2)

/-- When the retry loop advances, the held flash_ack passes the advance
test for this block and at least one send happened. -/
theorem block_retry_loop_advance (target_ip o : Nat) :
    ∀ (fuel : Nat) (last : Dgram) (evs : List (Option Dgram))
      (k : Nat) (a : Dgram) (rest : List (Option Dgram)),
      block_retry_loop target_ip o fuel last evs = some (k, a, rest) →
      block_ack_ok a o = true ∧ 1 ≤ k := by
  intro fuel
  induction fuel with
  | zero =>
    intro last evs k a rest h
    simp [block_retry_loop] at h
  | succ m ih =>
    intro last evs k a rest h
    unfold block_retry_loop at h
    by_cases hok : block_ack_ok (read_ack_loop target_ip last evs).1 o = true
    · rw [if_pos hok] at h
      simp only [Option.some.injEq, Prod.mk.injEq] at h
      obtain ⟨hk, ha, hrest⟩ := h
      rw [← ha]
      exact ⟨hok, by omega⟩
    · rw [if_neg hok] at h
      cases h1 : block_retry_loop target_ip o m (read_ack_loop target_ip last evs).1
          (read_ack_loop target_ip last evs).2 with
      | none => rw [h1] at h; simp at h
      | some v =>
        obtain ⟨k1, a1, rest1⟩ := v
        rw [h1] at h
        simp only [Option.some.injEq, Prod.mk.injEq] at h
        obtain ⟨hk, ha, hrest⟩ := h
        have hadv := ih _ _ _ _ _ h1
        rw [← ha]
        exact ⟨hadv.1, by omega⟩

/-- When the first recv result fails the advance test and the loop still
advances, the block was sent at least twice. -/
theorem block_retry_loop_resend (target_ip o fuel : Nat) (last : Dgram)
    (evs : List (Option Dgram)) (k : Nat) (a : Dgram)
    (rest : List (Option Dgram))
    (h : block_retry_loop target_ip o (fuel + 1) last evs = some (k, a, rest))
    (hno : block_ack_ok (read_ack_loop target_ip last evs).1 o = false) :
    2 ≤ k := by
  unfold block_retry_loop at h
  rw [if_neg (by rw [hno]; simp)] at h
  cases h1 : block_retry_loop target_ip o fuel (read_ack_loop target_ip last evs).1
      (read_ack_loop target_ip last evs).2 with
  | none => rw [h1] at h; simp at h
  | some v =>
    obtain ⟨k1, a1, rest1⟩ := v
    rw [h1] at h
    simp only [Option.some.injEq, Prod.mk.injEq] at h
    obtain ⟨hk, ha, hrest⟩ := h
    have hadv := block_retry_loop_advance target_ip o fuel _ _ _ _ _ h1
    omega

/-- Every index in the send trace comes from the block list. -/
theorem block_transfer_mem (target_ip : Nat) :
    ∀ (os : List Nat) (fuel : Nat) (last : Dgram) (evs : List (Option Dgram))
      (tr : List Nat) (a : Dgram) (rest : List (Option Dgram)),
      block_transfer target_ip os fuel last evs = some (tr, a, rest) →
      ∀ x ∈ tr, x ∈ os := by
  intro os
  induction os with
  | nil =>
    intro fuel last evs tr a rest h x hx
    unfold block_transfer at h
    simp only [Option.some.injEq, Prod.mk.injEq] at h
    rw [← h.1] at hx
    simp at hx
  | cons o os ih =>
    intro fuel last evs tr a rest h x hx
    unfold block_transfer at h
    cases h1 : block_retry_loop target_ip o fuel last evs with
    | none => rw [h1] at h; simp at h
    | some v =>
      obtain ⟨k, a1, rest1⟩ := v
      rw [h1] at h
      simp only [] at h
      cases h2 : block_transfer target_ip os fuel a1 rest1 with
      | none => rw [h2] at h; simp at h
      | some w =>
        obtain ⟨tr2, a2, rest2⟩ := w
        rw [h2] at h
        simp only [Option.some.injEq, Prod.mk.injEq] at h
        rw [← h.1] at hx
        rcases List.mem_append.mp hx with hx1 | hx2
        · rw [List.eq_of_mem_replicate hx1]
          exact List.mem_cons_self o os
        · exact List.mem_cons_of_mem o (ih _ _ _ _ _ _ h2 x hx2)

/-- A replicated list is pairwise nondecreasing. -/
theorem pairwise_replicate_le (k o : Nat) :
    (List.replicate k o).Pairwise (· ≤ ·) := by
  induction k with
  | zero => exact List.Pairwise.nil
  | succ m ih =>
    rw [List.replicate_succ]
    refine List.Pairwise.cons ?_ ih
    intro y hy
    rw [List.eq_of_mem_replicate hy]

/-- A transfer over a nondecreasing block list produces a nondecreasing
send trace. -/
theorem block_transfer_ordered (target_ip : Nat) :
    ∀ (os : List Nat), os.Pairwise (· ≤ ·) →
      ∀ (fuel : Nat) (last : Dgram) (evs : List (Option Dgram))
        (tr : List Nat) (a : Dgram) (rest : List (Option Dgram)),
        block_transfer target_ip os fuel last evs = some (tr, a, rest) →
        tr.Pairwise (· ≤ ·) := by
  intro os
  induction os with
  | nil =>
    intro _ fuel last evs tr a rest h
    unfold block_transfer at h
    simp only [Option.some.injEq, Prod.mk.injEq] at h
    rw [← h.1]
    exact List.Pairwise.nil
  | cons o os ih =>
    intro hp fuel last evs tr a rest h
    obtain ⟨ho, hp2⟩ := List.pairwise_cons.mp hp
    unfold block_transfer at h
    cases h1 : block_retry_loop target_ip o fuel last evs with
    | none => rw [h1] at h; simp at h
    | some v =>
      obtain ⟨k, a1, rest1⟩ := v
      rw [h1] at h
      simp only [] at h
      cases h2 : block_transfer target_ip os fuel a1 rest1 with
      | none => rw [h2] at h; simp at h
      | some w =>
        obtain ⟨tr2, a2, rest2⟩ := w
        rw [h2] at h
        simp only [Option.some.injEq, Prod.mk.injEq] at h
        rw [← h.1]
        refine List.pairwise_append.mpr ⟨pairwise_replicate_le k o, ih hp2 _ _ _ _ _ _ h2, ?_⟩
        intro x hx y hy
        rw [List.eq_of_mem_replicate hx]
        exact ho y (block_transfer_mem target_ip os fuel a1 rest1 tr2 a2 rest2 h2 y hy)

/-- Handshake ack held in flash_ack before the block loop. -/
def c7_handshake_ack : Dgram := Dgram.mk 1 (ack_header ++ List.replicate 36 0)

/-- An ack-shaped frame from the wrong sender with bitmap bit 0 set. -/
def c7_wrong_ack0 : Dgram := Dgram.mk 2 (ack_header ++ [0, 0, 1] ++ List.replicate 33 0)

/-- An ack-shaped frame from the wrong sender with bitmap bits 0 and 1 set. -/
def c7_wrong_ack01 : Dgram := Dgram.mk 2 (ack_header ++ [0, 0, 3] ++ List.replicate 33 0)

/-- Receive events holding only wrong-sender datagrams. -/
def c7_events : List (Option Dgram) :=
  [some c7_wrong_ack0, none, some c7_wrong_ack01, none]

/-- C7 (counterexample): the claim requires an ack frame for the target
sensor before block i+1 is sent, but the transfer of blocks 0 and 1
completes on these events although every datagram comes from sender 2,
not the target 1: the recv loop stores the wrong sender's datagram in
flash_ack, the buffer empties, and the advance test reads that datagram. -/
theorem C7_wrong_sender_counterexample :
    block_transfer 1 [0, 1] 2 c7_handshake_ack c7_events =
      some ([0, 1], c7_wrong_ack01, []) ∧
    ∀ e ∈ c7_events, Option.map Dgram.sender e ≠ some 1 := by
  constructor
  · decide
  · decide

/-- C7 (amended): during the block transfer, (i) the retry loop for block
o advances only when the datagram finally held in flash_ack is an
ack-headed 42-byte frame whose bitmap bit o is 1, after at least one send
of block o — but the frame may come from any sender, not only the target;
(ii) when the first recv pass fails the advance test, block o is sent at
least twice (resend while the bit is 0); (iii) a transfer over a
nondecreasing index list (the source iterates range(256)) yields a send
trace in nondecreasing block order, so no later block is sent before the
advance test passed for every earlier block. -/
theorem C7_block_transfer_semantics :
    (∀ (target_ip o fuel : Nat) (last : Dgram) (evs : List (Option Dgram))
       (k : Nat) (a : Dgram) (rest : List (Option Dgram)),
       block_retry_loop target_ip o fuel last evs = some (k, a, rest) →
       is_ack_frame a.payload = true ∧ ack_bit a.payload o = 1 ∧ 1 ≤ k) ∧
    (∀ (target_ip o fuel : Nat) (last : Dgram) (evs : List (Option Dgram))
       (k : Nat) (a : Dgram) (rest : List (Option Dgram)),
       block_retry_loop target_ip o (fuel + 1) last evs = some (k, a, rest) →
       block_ack_ok (read_ack_loop target_ip last evs).1 o = false → 2 ≤ k) ∧
    (∀ (target_ip : Nat) (os : List Nat), os.Pairwise (· ≤ ·) →
      ∀ (fuel : Nat) (last : Dgram) (evs : List (Option Dgram))
        (tr : List Nat) (a : Dgram) (rest : List (Option Dgram)),
        block_transfer target_ip os fuel last evs = some (tr, a, rest) →
        tr.Pairwise (· ≤ ·)) := by
  refine ⟨?_, ?_, ?_⟩
  · intro T o fuel last evs k a rest h
    have hadv := block_retry_loop_advance T o fuel last evs k a rest h
    have hok := hadv.1
    simp only [block_ack_ok, Bool.and_eq_true, decide_eq_true_eq, beq_iff_eq] at hok
    exact ⟨hok.1.1, hok.2, hadv.2⟩
  · intro T o fuel last evs k a rest h hno
    exact block_retry_loop_resend T o fuel last evs k a rest h hno
  · intro T os hp fuel last evs tr a rest h
    exact block_transfer_ordered T os hp fuel last evs tr a rest h

/-- C7 (witness): the amended theorem applied at concrete runs — block 0
advancing in one send on the wrong-sender events, block 1 resent twice
when the first recv pass ends on a bit-1-clear ack, and the resulting
trace of that transfer in order. -/
theorem C7_block_transfer_semantics_witness :
    (is_ack_frame c7_wrong_ack0.payload = true ∧
      ack_bit c7_wrong_ack0.payload 0 = 1 ∧ 1 ≤ 1) ∧
    2 ≤ 2 ∧ List.Pairwise (fun a b => a ≤ b) [1, 1] :=
  ⟨C7_block_transfer_semantics.1 1 0 2 c7_handshake_ack c7_events 1 c7_wrong_ack0
      [some c7_wrong_ack01, none] (by decide),
   C7_block_transfer_semantics.2.1 1 1 1 c7_wrong_ack0
      [none, some c7_wrong_ack01, none] 2 c7_wrong_ack01 [] (by decide) (by decide),
   C7_block_transfer_semantics.2.2 1 [1] (by decide) 2 c7_wrong_ack0
      [none, some c7_wrong_ack01, none] [1, 1] c7_wrong_ack01 [] (by decide)⟩


end Ilidar
